import Mathlib

/-!
Shallow embedding of the mos6502 emulator core (`src/cpu/mod.rs` and its
submodules, with `php`/`pla` taken from `src/instructions/stack_ops/` which
hold the only implementations of those handlers in the tree).

Machine integers are modelled as `Nat` with explicit `% 2^8` / `% 2^16`
at the points where the Rust types (`u8`, `u16`) truncate or where the code
calls `wrapping_add` / `wrapping_sub`.  The two places where the Rust code
uses plain (non-wrapping) `-` / `+` on `u16` (`jsr`'s `cpu.pc - 1` and
`rts`'s `addr + 1`) are modelled as fallible: under Rust's checked-overflow
semantics (the configuration the crate's own test suite runs under) those
expressions panic on under/overflow, which the embedding renders as `none`.
A `panic` of `Opcode::try_from(..).expect(..)` on an undocumented opcode is
likewise rendered as `none`.
-/

namespace MOS6502

/-- Flat 64 KiB byte array (`src/memory.rs`, field `memory: [u8; MEMORY_SIZE]`).
Addresses are `u16` (reduced `% 65536`) and cells hold `u8` (reduced `% 256`). -/
structure Memory where
  memory : Nat → Nat

def POWER_ON_RESET_ADDR_L : Nat := 0xFFFC
def POWER_ON_RESET_ADDR_H : Nat := 0xFFFD
def UNRESERVED_MEMORY_ADDR_START : Nat := 0x0200

/-- Models `Memory::read(addr: u16) -> u8`. -/
def Memory.read (m : Memory) (addr : Nat) : Nat :=
  m.memory (addr % 65536) % 256

/-- Models `Memory::write(byte: u8, addr: u16)`. -/
def Memory.write (m : Memory) (byte addr : Nat) : Memory :=
  ⟨fun a => if a = addr % 65536 then byte % 256 else m.memory a⟩

/-- Models `Memory::new()`: all zeroes except the reset vector, which points at
`UNRESERVED_MEMORY_ADDR_START = $0200` (low byte `$00` at `$FFFC`, high byte
`$02` at `$FFFD`). -/
def Memory.new : Memory :=
  ⟨fun a =>
    if a = POWER_ON_RESET_ADDR_L then 0x00
    else if a = POWER_ON_RESET_ADDR_H then 0x02
    else 0⟩

def CSF_ZERO : Nat := 0x02
def CSF_NEGATIVE : Nat := 0x80
def SYS_STACK_ADDR_END : Nat := 0x100

def CPU_DEFAULT_ACC : Nat := 0
def CPU_DEFAULT_X : Nat := 0
def CPU_DEFAULT_Y : Nat := 0
def CPU_DEFAULT_SP : Nat := 0xFF
def CPU_DEFAULT_STATUS : Nat := 0x20

/-- Register file of `struct CPU` (`src/cpu/mod.rs`), with its owned memory. -/
structure CPU where
  acc : Nat
  x : Nat
  y : Nat
  sp : Nat
  pc : Nat
  status : Nat
  cycles : Nat
  memory : Memory

/-- Models `CPU::new(memory)`: every register and the cycle counter start at 0. -/
def CPU.new (memory : Memory) : CPU :=
  { acc := 0, x := 0, y := 0, sp := 0, pc := 0, status := 0, cycles := 0,
    memory := memory }

/-- Models `CPU::reset()`: zero `A`/`X`/`Y`, `SP = $FF`, `P = $20`, `PC` loaded
little-endian from the reset vector through plain `Memory::read` (no cycle
is consumed for those reads), `cycles` preset to 7. -/
def CPU.reset (cpu : CPU) : CPU :=
  { cpu with
    acc := CPU_DEFAULT_ACC
    x := CPU_DEFAULT_X
    y := CPU_DEFAULT_Y
    sp := CPU_DEFAULT_SP
    pc := (cpu.memory.read POWER_ON_RESET_ADDR_H) <<< 8 |||
          cpu.memory.read POWER_ON_RESET_ADDR_L
    status := CPU_DEFAULT_STATUS
    cycles := 7 }

/-- Models `CPU::increment_pc`: `pc.wrapping_add(1)` on `u16`. -/
def CPU.incrementPc (cpu : CPU) : CPU :=
  { cpu with pc := (cpu.pc + 1) % 65536 }

/-- Models `CPU::fetch_byte`: read at `PC`, increment `PC`, one cycle. -/
def CPU.fetchByte (cpu : CPU) : Nat × CPU :=
  let byte := cpu.memory.read cpu.pc
  let cpu := cpu.incrementPc
  (byte, { cpu with cycles := cpu.cycles + 1 })

/-- Models `CPU::fetch_addr`: two fetches, combined little-endian. -/
def CPU.fetchAddr (cpu : CPU) : Nat × CPU :=
  let (addrL, cpu) := cpu.fetchByte
  let (addrH, cpu) := cpu.fetchByte
  (addrH <<< 8 ||| addrL, cpu)

/-- Models `CPU::read_byte(addr)`: one cycle. -/
def CPU.readByte (cpu : CPU) (addr : Nat) : Nat × CPU :=
  (cpu.memory.read addr, { cpu with cycles := cpu.cycles + 1 })

/-- Models `CPU::read_addr(low, high)`: two reads, combined little-endian. -/
def CPU.readAddr (cpu : CPU) (low high : Nat) : Nat × CPU :=
  let (addrL, cpu) := cpu.readByte low
  let (addrH, cpu) := cpu.readByte high
  (addrH <<< 8 ||| addrL, cpu)

/-- Models `CPU::write_byte(byte, addr)`: one cycle. -/
def CPU.writeByte (cpu : CPU) (byte addr : Nat) : CPU :=
  { cpu with memory := cpu.memory.write byte addr, cycles := cpu.cycles + 1 }

/-- Models `CPU::push_byte_to_stack(byte)`: write at `SP | $0100`, then
`sp.wrapping_sub(1)`, one cycle. -/
def CPU.pushByteToStack (cpu : CPU) (byte : Nat) : CPU :=
  let stackAddr := cpu.sp % 256 ||| SYS_STACK_ADDR_END
  { cpu with
    memory := cpu.memory.write byte stackAddr
    sp := (cpu.sp + 255) % 256
    cycles := cpu.cycles + 1 }

/-- Models `CPU::push_addr_to_stack(addr)`: high byte first, then low byte. -/
def CPU.pushAddrToStack (cpu : CPU) (addr : Nat) : CPU :=
  let addrH := (addr >>> 8) % 256
  let addrL := addr % 256
  (cpu.pushByteToStack addrH).pushByteToStack addrL

/-- Models `CPU::pop_byte_from_stack()`: `sp.wrapping_add(1)` then read at
`SP | $0100`, two cycles. -/
def CPU.popByteFromStack (cpu : CPU) : Nat × CPU :=
  let sp := (cpu.sp + 1) % 256
  let stackAddr := sp ||| SYS_STACK_ADDR_END
  (cpu.memory.read stackAddr, { cpu with sp := sp, cycles := cpu.cycles + 2 })

/-- Models `CPU::pop_addr_from_stack()`: low byte first, then high byte. -/
def CPU.popAddrFromStack (cpu : CPU) : Nat × CPU :=
  let (addrL, cpu) := cpu.popByteFromStack
  let (addrH, cpu) := cpu.popByteFromStack
  (addrH <<< 8 ||| addrL, cpu)

/-- Models `CPU::byte_is_negative_int(byte)`. -/
def CPU.byteIsNegativeInt (byte : Nat) : Bool :=
  byte &&& 0x80 != 0

/-- Models `CPU::page_crossed(addr_a, addr_b)`. -/
def CPU.pageCrossed (addrA addrB : Nat) : Bool :=
  (addrA &&& 0xFF00) != (addrB &&& 0xFF00)

/-- Models `jmp_abs` (`src/cpu/jumps/jmp.rs`): 3 cycles in total. -/
def jmpAbs (cpu : CPU) : CPU :=
  let (addr, cpu) := cpu.fetchAddr
  { cpu with pc := addr }

/-- Models `jmp_ind` (`src/cpu/jumps/jmp.rs`): page-boundary bug when the operand's
low byte is `$FF`; a full `reset()` when the operand equals
`POWER_ON_RESET_ADDR_L = $FFFC`.  In the final branch `ind_addr + 1` cannot
overflow `u16` because `ind_addr & $FF ≠ $FF` there. -/
def jmpInd (cpu : CPU) : CPU :=
  let (indAddr, cpu) := cpu.fetchAddr
  if indAddr &&& 0x00FF = 0x00FF then
    let indAddrH := indAddr &&& 0xFF00
    let (addr, cpu) := cpu.readAddr indAddr indAddrH
    { cpu with pc := addr }
  else if indAddr = POWER_ON_RESET_ADDR_L then
    cpu.reset
  else
    let (addr, cpu) := cpu.readAddr indAddr (indAddr + 1)
    { cpu with pc := addr }

/-- Models `jsr` (`src/cpu/jumps/jsr.rs`): `cpu.push_addr_to_stack(cpu.pc - 1)` uses
plain `u16` subtraction, which panics on underflow (PC = 0) under Rust's
checked-overflow semantics; that trap is modelled as `none`. -/
def jsr (cpu : CPU) : Option CPU :=
  let (addr, cpu) := cpu.fetchAddr
  if cpu.pc = 0 then none
  else
    let cpu := cpu.pushAddrToStack (cpu.pc - 1)
    some { cpu with pc := addr, cycles := cpu.cycles + 1 }

/-- Models `rts` (`src/cpu/jumps/rts.rs`): `cpu.pc = addr + 1` uses plain `u16`
addition, which panics on overflow (popped address `$FFFF`) under Rust's
checked-overflow semantics; that trap is modelled as `none`. -/
def rts (cpu : CPU) : Option CPU :=
  let (addr, cpu) := cpu.popAddrFromStack
  if addr + 1 ≥ 65536 then none
  else some { cpu with pc := addr + 1, cycles := cpu.cycles + 1 }

/-- Models `lda_set_status` (`src/cpu/load_ops/lda.rs`): clear `Z|N`, then set `Z`
if `A = 0`, else set `N` if `A` is negative.  `!(CSF_ZERO | CSF_NEGATIVE)`
on `u8` is `0xFF ^^^ (CSF_ZERO ||| CSF_NEGATIVE)`. -/
def ldaSetStatus (cpu : CPU) : CPU :=
  let status := cpu.status &&& (0xFF ^^^ (CSF_ZERO ||| CSF_NEGATIVE))
  if cpu.acc = 0 then { cpu with status := status ||| CSF_ZERO }
  else if CPU.byteIsNegativeInt cpu.acc then
    { cpu with status := status ||| CSF_NEGATIVE }
  else { cpu with status := status }

def ldaImmediate (cpu : CPU) : CPU :=
  let (b, cpu) := cpu.fetchByte
  ldaSetStatus { cpu with acc := b }

def ldaZeroPage (cpu : CPU) : CPU :=
  let (addr, cpu) := cpu.fetchByte
  let (b, cpu) := cpu.readByte addr
  ldaSetStatus { cpu with acc := b }

def ldaZeroPageX (cpu : CPU) : CPU :=
  let (byte, cpu) := cpu.fetchByte
  let addr := (cpu.x + byte) % 256
  let cpu := { cpu with cycles := cpu.cycles + 1 }
  let (b, cpu) := cpu.readByte addr
  ldaSetStatus { cpu with acc := b }

def ldaAbsolute (cpu : CPU) : CPU :=
  let (addr, cpu) := cpu.fetchAddr
  let (b, cpu) := cpu.readByte addr
  ldaSetStatus { cpu with acc := b }

def ldaAbsoluteX (cpu : CPU) : CPU :=
  let (absAddr, cpu) := cpu.fetchAddr
  let effAddr := (absAddr + cpu.x) % 65536
  let cpu :=
    if CPU.pageCrossed absAddr effAddr then { cpu with cycles := cpu.cycles + 1 }
    else cpu
  let (b, cpu) := cpu.readByte effAddr
  ldaSetStatus { cpu with acc := b }

def ldaAbsoluteY (cpu : CPU) : CPU :=
  let (absAddr, cpu) := cpu.fetchAddr
  let effAddr := (absAddr + cpu.y) % 65536
  let cpu :=
    if CPU.pageCrossed absAddr effAddr then { cpu with cycles := cpu.cycles + 1 }
    else cpu
  let (b, cpu) := cpu.readByte effAddr
  ldaSetStatus { cpu with acc := b }

def ldaIndirectX (cpu : CPU) : CPU :=
  let (zpgAddr, cpu) := cpu.fetchByte
  let addr := (zpgAddr + cpu.x) % 256
  let cpu := { cpu with cycles := cpu.cycles + 1 }
  let (effAddr, cpu) := cpu.readAddr addr ((addr + 1) % 256)
  let (b, cpu) := cpu.readByte effAddr
  ldaSetStatus { cpu with acc := b }

def ldaIndirectY (cpu : CPU) : CPU :=
  let (zpgAddr, cpu) := cpu.fetchByte
  let (addr, cpu) := cpu.readAddr zpgAddr ((zpgAddr + 1) % 256)
  let effAddr := (addr + cpu.y) % 65536
  let cpu :=
    if CPU.pageCrossed addr effAddr then { cpu with cycles := cpu.cycles + 1 }
    else cpu
  let (b, cpu) := cpu.readByte effAddr
  ldaSetStatus { cpu with acc := b }

/-- Models `ldx_set_status` (`src/cpu/load_ops/ldx.rs`). -/
def ldxSetStatus (cpu : CPU) : CPU :=
  let status := cpu.status &&& (0xFF ^^^ (CSF_ZERO ||| CSF_NEGATIVE))
  if cpu.x = 0 then { cpu with status := status ||| CSF_ZERO }
  else if CPU.byteIsNegativeInt cpu.x then
    { cpu with status := status ||| CSF_NEGATIVE }
  else { cpu with status := status }

def ldxImmediate (cpu : CPU) : CPU :=
  let (b, cpu) := cpu.fetchByte
  ldxSetStatus { cpu with x := b }

def ldxZeroPage (cpu : CPU) : CPU :=
  let (addr, cpu) := cpu.fetchByte
  let (b, cpu) := cpu.readByte addr
  ldxSetStatus { cpu with x := b }

def ldxZeroPageY (cpu : CPU) : CPU :=
  let (byte, cpu) := cpu.fetchByte
  let addr := (cpu.y + byte) % 256
  let cpu := { cpu with cycles := cpu.cycles + 1 }
  let (b, cpu) := cpu.readByte addr
  ldxSetStatus { cpu with x := b }

def ldxAbsolute (cpu : CPU) : CPU :=
  let (addr, cpu) := cpu.fetchAddr
  let (b, cpu) := cpu.readByte addr
  ldxSetStatus { cpu with x := b }

def ldxAbsoluteY (cpu : CPU) : CPU :=
  let (absAddr, cpu) := cpu.fetchAddr
  let effAddr := (absAddr + cpu.y) % 65536
  let cpu :=
    if CPU.pageCrossed absAddr effAddr then { cpu with cycles := cpu.cycles + 1 }
    else cpu
  let (b, cpu) := cpu.readByte effAddr
  ldxSetStatus { cpu with x := b }

/-- Models `ldy_set_status` (`src/cpu/load_ops/ldy.rs`). -/
def ldySetStatus (cpu : CPU) : CPU :=
  let status := cpu.status &&& (0xFF ^^^ (CSF_ZERO ||| CSF_NEGATIVE))
  if cpu.y = 0 then { cpu with status := status ||| CSF_ZERO }
  else if CPU.byteIsNegativeInt cpu.y then
    { cpu with status := status ||| CSF_NEGATIVE }
  else { cpu with status := status }

def ldyImmediate (cpu : CPU) : CPU :=
  let (b, cpu) := cpu.fetchByte
  ldySetStatus { cpu with y := b }

def ldyZeroPage (cpu : CPU) : CPU :=
  let (addr, cpu) := cpu.fetchByte
  let (b, cpu) := cpu.readByte addr
  ldySetStatus { cpu with y := b }

def ldyZeroPageX (cpu : CPU) : CPU :=
  let (byte, cpu) := cpu.fetchByte
  let addr := (cpu.x + byte) % 256
  let cpu := { cpu with cycles := cpu.cycles + 1 }
  let (b, cpu) := cpu.readByte addr
  ldySetStatus { cpu with y := b }

def ldyAbsolute (cpu : CPU) : CPU :=
  let (addr, cpu) := cpu.fetchAddr
  let (b, cpu) := cpu.readByte addr
  ldySetStatus { cpu with y := b }

def ldyAbsoluteX (cpu : CPU) : CPU :=
  let (absAddr, cpu) := cpu.fetchAddr
  let effAddr := (absAddr + cpu.x) % 65536
  let cpu :=
    if CPU.pageCrossed absAddr effAddr then { cpu with cycles := cpu.cycles + 1 }
    else cpu
  let (b, cpu) := cpu.readByte effAddr
  ldySetStatus { cpu with y := b }

/-- Models `pha` (`src/cpu/stack_ops/pha.rs`): 3 cycles in total. -/
def pha (cpu : CPU) : CPU :=
  let cpu := cpu.pushByteToStack cpu.acc
  { cpu with cycles := cpu.cycles + 1 }

/-- Models `php` (`src/instructions/stack_ops/php.rs`): pushes `P` verbatim (the
source does not force bit 4 on the stack copy). -/
def php (cpu : CPU) : CPU :=
  let cpu := cpu.pushByteToStack cpu.status
  { cpu with cycles := cpu.cycles + 1 }

/-- Models `pla_set_status` (`src/instructions/stack_ops/pla.rs`). -/
def plaSetStatus (cpu : CPU) : CPU :=
  let status := cpu.status &&& (0xFF ^^^ (CSF_ZERO ||| CSF_NEGATIVE))
  if cpu.acc = 0 then { cpu with status := status ||| CSF_ZERO }
  else if CPU.byteIsNegativeInt cpu.acc then
    { cpu with status := status ||| CSF_NEGATIVE }
  else { cpu with status := status }

/-- Models `pla` (`src/instructions/stack_ops/pla.rs`): 4 cycles in total. -/
def pla (cpu : CPU) : CPU :=
  let (b, cpu) := cpu.popByteFromStack
  let cpu := { cpu with cycles := cpu.cycles + 1 }
  plaSetStatus { cpu with acc := b }

/-- Models `plp` (`src/cpu/stack_ops/plp.rs`, identical in
`src/instructions/stack_ops/plp.rs`): assigns the popped byte to `P`
verbatim (the source does not mask bits 4 and 5). -/
def plp (cpu : CPU) : CPU :=
  let (b, cpu) := cpu.popByteFromStack
  { cpu with status := b, cycles := cpu.cycles + 1 }

/-- Models `tsx_set_status` (`src/cpu/stack_ops/tsx.rs`). -/
def tsxSetStatus (cpu : CPU) : CPU :=
  let status := cpu.status &&& (0xFF ^^^ (CSF_ZERO ||| CSF_NEGATIVE))
  if cpu.x = 0 then { cpu with status := status ||| CSF_ZERO }
  else if CPU.byteIsNegativeInt cpu.x then
    { cpu with status := status ||| CSF_NEGATIVE }
  else { cpu with status := status }

/-- Models `tsx` (`src/cpu/stack_ops/tsx.rs`): `X ← SP`, flags `Z`/`N`, 2 cycles. -/
def tsx (cpu : CPU) : CPU :=
  let cpu := tsxSetStatus { cpu with x := cpu.sp }
  { cpu with cycles := cpu.cycles + 1 }

/-- Models `txs` (`src/cpu/stack_ops/txs.rs`): `SP ← X`, no flags, 2 cycles. -/
def txs (cpu : CPU) : CPU :=
  { cpu with sp := cpu.x, cycles := cpu.cycles + 1 }

def staZeroPage (cpu : CPU) : CPU :=
  let (addr, cpu) := cpu.fetchByte
  cpu.writeByte cpu.acc addr

def staZeroPageX (cpu : CPU) : CPU :=
  let (zpgAddr, cpu) := cpu.fetchByte
  let effAddr := (zpgAddr + cpu.x) % 256
  let cpu := { cpu with cycles := cpu.cycles + 1 }
  cpu.writeByte cpu.acc effAddr

def staAbsolute (cpu : CPU) : CPU :=
  let (addr, cpu) := cpu.fetchAddr
  cpu.writeByte cpu.acc addr

def staAbsoluteX (cpu : CPU) : CPU :=
  let (absAddr, cpu) := cpu.fetchAddr
  let effAddr := (absAddr + cpu.x) % 65536
  let cpu := { cpu with cycles := cpu.cycles + 1 }
  cpu.writeByte cpu.acc effAddr

def staAbsoluteY (cpu : CPU) : CPU :=
  let (absAddr, cpu) := cpu.fetchAddr
  let effAddr := (absAddr + cpu.y) % 65536
  let cpu := { cpu with cycles := cpu.cycles + 1 }
  cpu.writeByte cpu.acc effAddr

def staIndirectX (cpu : CPU) : CPU :=
  let (zpgAddr, cpu) := cpu.fetchByte
  let indAddr := (zpgAddr + cpu.x) % 256
  let cpu := { cpu with cycles := cpu.cycles + 1 }
  let (effAddr, cpu) := cpu.readAddr indAddr ((indAddr + 1) % 256)
  cpu.writeByte cpu.acc effAddr

def staIndirectY (cpu : CPU) : CPU :=
  let (zpgAddr, cpu) := cpu.fetchByte
  let (indAddr, cpu) := cpu.readAddr zpgAddr ((zpgAddr + 1) % 256)
  let effAddr := (indAddr + cpu.y) % 65536
  let cpu := { cpu with cycles := cpu.cycles + 1 }
  cpu.writeByte cpu.acc effAddr

def stxZeroPage (cpu : CPU) : CPU :=
  let (addr, cpu) := cpu.fetchByte
  cpu.writeByte cpu.x addr

def stxZeroPageY (cpu : CPU) : CPU :=
  let (zpgAddr, cpu) := cpu.fetchByte
  let effAddr := (zpgAddr + cpu.y) % 256
  let cpu := { cpu with cycles := cpu.cycles + 1 }
  cpu.writeByte cpu.x effAddr

def stxAbsolute (cpu : CPU) : CPU :=
  let (addr, cpu) := cpu.fetchAddr
  cpu.writeByte cpu.x addr

def styZeroPage (cpu : CPU) : CPU :=
  let (addr, cpu) := cpu.fetchByte
  cpu.writeByte cpu.y addr

def styZeroPageX (cpu : CPU) : CPU :=
  let (zpgAddr, cpu) := cpu.fetchByte
  let effAddr := (zpgAddr + cpu.x) % 256
  let cpu := { cpu with cycles := cpu.cycles + 1 }
  cpu.writeByte cpu.y effAddr

def styAbsolute (cpu : CPU) : CPU :=
  let (addr, cpu) := cpu.fetchAddr
  cpu.writeByte cpu.y addr

/-- Opcode dispatch of `CPU::execute_next_instruction`
(`Opcode::try_from(byte)` followed by the `match`); an undocumented opcode
panics through `.expect(..)`, modelled as `none`. -/
def dispatchOpcode (b : Nat) (cpu : CPU) : Option CPU :=
  if b = 0x4C then some (jmpAbs cpu)
  else if b = 0x6C then some (jmpInd cpu)
  else if b = 0x20 then jsr cpu
  else if b = 0xA9 then some (ldaImmediate cpu)
  else if b = 0xA5 then some (ldaZeroPage cpu)
  else if b = 0xB5 then some (ldaZeroPageX cpu)
  else if b = 0xAD then some (ldaAbsolute cpu)
  else if b = 0xBD then some (ldaAbsoluteX cpu)
  else if b = 0xB9 then some (ldaAbsoluteY cpu)
  else if b = 0xA1 then some (ldaIndirectX cpu)
  else if b = 0xB1 then some (ldaIndirectY cpu)
  else if b = 0xA2 then some (ldxImmediate cpu)
  else if b = 0xA6 then some (ldxZeroPage cpu)
  else if b = 0xB6 then some (ldxZeroPageY cpu)
  else if b = 0xAE then some (ldxAbsolute cpu)
  else if b = 0xBE then some (ldxAbsoluteY cpu)
  else if b = 0xA0 then some (ldyImmediate cpu)
  else if b = 0xA4 then some (ldyZeroPage cpu)
  else if b = 0xB4 then some (ldyZeroPageX cpu)
  else if b = 0xAC then some (ldyAbsolute cpu)
  else if b = 0xBC then some (ldyAbsoluteX cpu)
  else if b = 0x48 then some (pha cpu)
  else if b = 0x08 then some (php cpu)
  else if b = 0x68 then some (pla cpu)
  else if b = 0x28 then some (plp cpu)
  else if b = 0x60 then rts cpu
  else if b = 0x85 then some (staZeroPage cpu)
  else if b = 0x95 then some (staZeroPageX cpu)
  else if b = 0x8D then some (staAbsolute cpu)
  else if b = 0x9D then some (staAbsoluteX cpu)
  else if b = 0x99 then some (staAbsoluteY cpu)
  else if b = 0x81 then some (staIndirectX cpu)
  else if b = 0x91 then some (staIndirectY cpu)
  else if b = 0x86 then some (stxZeroPage cpu)
  else if b = 0x96 then some (stxZeroPageY cpu)
  else if b = 0x8E then some (stxAbsolute cpu)
  else if b = 0x84 then some (styZeroPage cpu)
  else if b = 0x94 then some (styZeroPageX cpu)
  else if b = 0x8C then some (styAbsolute cpu)
  else if b = 0xBA then some (tsx cpu)
  else if b = 0x9A then some (txs cpu)
  else none

/-- Models `CPU::execute_next_instruction`: fetch the opcode byte (one cycle) and
dispatch. -/
def executeNextInstruction (cpu : CPU) : Option CPU :=
  dispatchOpcode cpu.fetchByte.1 cpu.fetchByte.2

/-- Iterated `execute_next_instruction` (the driver loop of `CPU::run`),
stopping with `none` if any step faults. -/
def stepN : Nat → CPU → Option CPU
  | 0, cpu => some cpu
  | n + 1, cpu => (executeNextInstruction cpu).bind (stepN n)


/-- Normal form of the shared `*_set_status` update of `P`. -/
def znStatus (st v : Nat) : Nat :=
  if v = 0 then (st &&& (0xFF ^^^ (CSF_ZERO ||| CSF_NEGATIVE))) ||| CSF_ZERO
  else if CPU.byteIsNegativeInt v then
    (st &&& (0xFF ^^^ (CSF_ZERO ||| CSF_NEGATIVE))) ||| CSF_NEGATIVE
  else st &&& (0xFF ^^^ (CSF_ZERO ||| CSF_NEGATIVE))

/-! Concrete machine states used to exercise the claims. -/

def dfltCPU : CPU := CPU.new Memory.new

/-- Program `LDA #$00 ; PHA ; PLP` at `$0200`, reachable from RESET. -/
def c1Mem : Memory :=
  (((Memory.new.write 0xA9 0x200).write 0x00 0x201).write 0x48 0x202).write 0x28 0x203

/-- About to execute `PLP` with `$00` on top of the stack. -/
def c2CPU : CPU :=
  { acc := 0, x := 0, y := 0, sp := 0xFE, pc := 0x200, status := 0xFF, cycles := 7,
    memory := (Memory.new.write 0x28 0x200).write 0x00 0x1FF }

/-- About to execute `PLP` with `$30` (`B` and `U` set) on top of the stack. -/
def c2bCPU : CPU :=
  { acc := 0, x := 0, y := 0, sp := 0xFE, pc := 0x200, status := 0x20, cycles := 7,
    memory := (Memory.new.write 0x28 0x200).write 0x30 0x1FF }

/-- About to execute `PHP` with `P = $20`. -/
def c3CPU : CPU :=
  { acc := 0, x := 0, y := 0, sp := 0xFF, pc := 0x200, status := 0x20, cycles := 7,
    memory := Memory.new.write 0x08 0x200 }

/-- About to execute `JMP ($FFFC)` with `A = 1` and 50 cycles consumed. -/
def c4CexCPU : CPU :=
  { acc := 1, x := 0, y := 0, sp := 0xFF, pc := 0x200, status := 0x20, cycles := 50,
    memory := ((Memory.new.write 0x6C 0x200).write 0xFC 0x201).write 0xFF 0x202 }

/-- About to execute `JMP ($30FF)` (page-boundary-bug case). -/
def c4WitCPU : CPU :=
  { acc := 1, x := 2, y := 3, sp := 0xF0, pc := 0x200, status := 0xAA, cycles := 10,
    memory := ((((Memory.new.write 0x6C 0x200).write 0xFF 0x201).write 0x30 0x202).write
      0x76 0x30FF).write 0x11 0x3000 }

/-- About to execute `JMP ($FFFC)` with 100 cycles consumed. -/
def c5WitCPU : CPU :=
  { acc := 5, x := 1, y := 2, sp := 3, pc := 0x300, status := 0xFF, cycles := 100,
    memory := ((Memory.new.write 0x6C 0x300).write 0xFC 0x301).write 0xFF 0x302 }

/-- Input `JSR` opcode at `$FFFD`: the operand fetch wraps `PC` to 0. -/
def c9aCPU : CPU :=
  { acc := 0, x := 0, y := 0, sp := 0xFF, pc := 0xFFFD, status := 0x20, cycles := 7,
    memory := Memory.new.write 0x20 0xFFFD }

/-- Input `RTS` about to pop the address `$FFFF`. -/
def c9bCPU : CPU :=
  { acc := 0, x := 0, y := 0, sp := 0xFD, pc := 0x200, status := 0x20, cycles := 7,
    memory := ((Memory.new.write 0x60 0x200).write 0xFF 0x1FE).write 0xFF 0x1FF }

/-- Input `LDA $02FF,X` with `X = 1`: page crossed. -/
def c6w1 : CPU :=
  { acc := 0, x := 1, y := 0, sp := 0xFF, pc := 0x200, status := 0x20, cycles := 0,
    memory := ((Memory.new.write 0xBD 0x200).write 0xFF 0x201).write 0x02 0x202 }

/-- Input `LDA $02FF,Y` with `Y = 1`: page crossed. -/
def c6w2 : CPU :=
  { acc := 0, x := 0, y := 1, sp := 0xFF, pc := 0x200, status := 0x20, cycles := 0,
    memory := ((Memory.new.write 0xB9 0x200).write 0xFF 0x201).write 0x02 0x202 }

/-- Input `LDX $02FF,Y` with `Y = 1`: page crossed. -/
def c6w3 : CPU :=
  { acc := 0, x := 0, y := 1, sp := 0xFF, pc := 0x200, status := 0x20, cycles := 0,
    memory := ((Memory.new.write 0xBE 0x200).write 0xFF 0x201).write 0x02 0x202 }

/-- Input `LDY $02FF,X` with `X = 1`: page crossed. -/
def c6w4 : CPU :=
  { acc := 0, x := 1, y := 0, sp := 0xFF, pc := 0x200, status := 0x20, cycles := 0,
    memory := ((Memory.new.write 0xBC 0x200).write 0xFF 0x201).write 0x02 0x202 }

/-- Input `LDA ($10),Y` with pointer `$02FF` and `Y = 1`: page crossed. -/
def c6w5 : CPU :=
  { acc := 0, x := 0, y := 1, sp := 0xFF, pc := 0x200, status := 0x20, cycles := 0,
    memory := (((Memory.new.write 0xB1 0x200).write 0x10 0x201).write 0xFF 0x10).write
      0x02 0x11 }

/-- Input `STA $02FF,X` with `X = 1`. -/
def c6w6 : CPU :=
  { acc := 0, x := 1, y := 0, sp := 0xFF, pc := 0x200, status := 0x20, cycles := 0,
    memory := ((Memory.new.write 0x9D 0x200).write 0xFF 0x201).write 0x02 0x202 }

/-- Input `STA $02FF,Y` with `Y = 1`. -/
def c6w7 : CPU :=
  { acc := 0, x := 0, y := 1, sp := 0xFF, pc := 0x200, status := 0x20, cycles := 0,
    memory := ((Memory.new.write 0x99 0x200).write 0xFF 0x201).write 0x02 0x202 }

/-- Input `STA ($10),Y` with pointer `$02FF` and `Y = 1`. -/
def c6w8 : CPU :=
  { acc := 0, x := 0, y := 1, sp := 0xFF, pc := 0x200, status := 0x20, cycles := 0,
    memory := (((Memory.new.write 0x91 0x200).write 0x10 0x201).write 0xFF 0x10).write
      0x02 0x11 }

/-- Input `LDA #$80` with all `P` bits set beforehand. -/
def c7wA : CPU :=
  { acc := 0, x := 0, y := 0, sp := 0xFF, pc := 0x200, status := 0xFF, cycles := 7,
    memory := (Memory.new.write 0xA9 0x200).write 0x80 0x201 }

/-- Input `TSX` with `SP = $80` and all `P` bits set beforehand. -/
def c7wB : CPU :=
  { acc := 0, x := 0, y := 0, sp := 0x80, pc := 0x200, status := 0xFF, cycles := 7,
    memory := Memory.new.write 0xBA 0x200 }

/-- Input `LDY #$00`. -/
def c7wC : CPU :=
  { acc := 0, x := 0, y := 1, sp := 0xFF, pc := 0x200, status := 0x20, cycles := 7,
    memory := (Memory.new.write 0xA0 0x200).write 0x00 0x201 }

/-- Input `STA $42` with `P = $C3`. -/
def c7wD : CPU :=
  { acc := 5, x := 0, y := 0, sp := 0xFF, pc := 0x200, status := 0xC3, cycles := 7,
    memory := (Memory.new.write 0x85 0x200).write 0x42 0x201 }

/-- Input `JSR $3042` at `$0200` with `RTS` at `$3042` (spec section 8 item 4). -/
def c8CPU : CPU :=
  { acc := 0, x := 0, y := 0, sp := 0xFF, pc := 0x200, status := 0x20, cycles := 7,
    memory := (((Memory.new.write 0x20 0x200).write 0x42 0x201).write 0x30 0x202).write
      0x60 0x3042 }

/-- The state after the `JSR` of `c8CPU`. -/
def c8s1 : CPU := (executeNextInstruction c8CPU).getD dfltCPU

/-- The state after the `RTS` following the `JSR` of `c8CPU`. -/
def c8s2 : CPU := (executeNextInstruction c8s1).getD dfltCPU

/-! Derived lemmas. -/

lemma or_and_distrib (a b c : Nat) : (a ||| b) &&& c = (a &&& c) ||| (b &&& c) := by
  apply Nat.eq_of_testBit_eq
  intro i
  simp [Nat.testBit_lor, Nat.testBit_land, Bool.and_or_distrib_right]

lemma shiftLeft8_and_255 (h : Nat) : (h <<< 8) &&& 255 = 0 := by
  apply Nat.eq_of_testBit_eq
  intro i
  simp only [Nat.testBit_land, Nat.testBit_shiftLeft, Nat.zero_testBit]
  rw [show (255 : Nat) = 2 ^ 8 - 1 by norm_num, Nat.testBit_two_pow_sub_one]
  by_cases h8 : 8 ≤ i
  · simp [show ¬(i < 8) by omega]
  · simp [show ¬(i ≥ 8) by omega]

lemma word_mod_256 (h l : Nat) (hl : l < 256) : (h <<< 8 ||| l) % 256 = l := by
  rw [show (256 : Nat) = 2 ^ 8 by norm_num, ← Nat.and_pow_two_sub_one_eq_mod]
  rw [show (2 ^ 8 - 1 : Nat) = 255 by norm_num, or_and_distrib, shiftLeft8_and_255,
    Nat.zero_or, show (255 : Nat) = 2 ^ 8 - 1 by norm_num, Nat.and_pow_two_sub_one_eq_mod]
  omega

lemma word_div_256 (h l : Nat) (hl : l < 256) : (h <<< 8 ||| l) / 256 = h := by
  rw [show (256 : Nat) = 2 ^ 8 by norm_num, ← Nat.shiftRight_eq_div_pow]
  apply Nat.eq_of_testBit_eq
  intro i
  rw [Nat.testBit_shiftRight, Nat.testBit_lor, Nat.testBit_shiftLeft]
  have hfalse : l.testBit (8 + i) = false := by
    apply Nat.testBit_eq_false_of_lt
    calc l < 256 := hl
    _ = 2 ^ 8 := by norm_num
    _ ≤ 2 ^ (8 + i) := Nat.pow_le_pow_right (by norm_num) (by omega)
  rw [hfalse]
  simp only [Bool.or_false, ge_iff_le]
  rw [decide_eq_true (Nat.le_add_right 8 i)]
  simp only [Bool.true_and]
  congr 1
  omega

lemma word_eq (h l : Nat) (hl : l < 256) : h <<< 8 ||| l = 256 * h + l := by
  have hd := Nat.div_add_mod (h <<< 8 ||| l) 256
  rw [word_div_256 h l hl, word_mod_256 h l hl] at hd
  omega

lemma word_lt (h l : Nat) (hh : h < 256) (hl : l < 256) : h <<< 8 ||| l < 65536 := by
  rw [word_eq h l hl]; omega

lemma or_256_eq (a : Nat) (ha : a < 256) : a ||| 256 = 256 + a := by
  rw [Nat.lor_comm, show (256 : Nat) = 1 <<< 8 by rfl, word_eq 1 a ha]
  norm_num [Nat.shiftLeft_eq]

lemma land_FF00 (a : Nat) : a &&& 0xFF00 = a / 256 % 256 * 256 := by
  apply Nat.eq_of_testBit_eq
  intro i
  rw [Nat.testBit_land, show (0xFF00 : Nat) = 255 <<< 8 by rfl, Nat.testBit_shiftLeft,
    show (255 : Nat) = 2 ^ 8 - 1 by norm_num, Nat.testBit_two_pow_sub_one]
  rw [show a / 256 % 256 * 256 = (a >>> 8 % 2 ^ 8) <<< 8 by
    rw [Nat.shiftRight_eq_div_pow, Nat.shiftLeft_eq]; norm_num]
  rw [Nat.testBit_shiftLeft, Nat.testBit_mod_two_pow, Nat.testBit_shiftRight]
  by_cases h8 : 8 ≤ i
  · rw [show 8 + (i - 8) = i by omega]
    simp [h8, Bool.and_assoc]
    rw [Bool.and_comm]
  · simp [show ¬(i ≥ 8) by omega]

lemma pageCrossed_iff (a b : Nat) (ha : a < 65536) (hb : b < 65536) :
    CPU.pageCrossed a b = true ↔ a / 256 ≠ b / 256 := by
  unfold CPU.pageCrossed
  rw [bne_iff_ne, land_FF00, land_FF00]
  have h1 : a / 256 % 256 = a / 256 := Nat.mod_eq_of_lt (by omega)
  have h2 : b / 256 % 256 = b / 256 := Nat.mod_eq_of_lt (by omega)
  rw [h1, h2]
  constructor <;> intro h <;> omega

lemma hi_lo_recon (v : Nat) (hv : v < 65536) :
    ((v >>> 8) % 256) <<< 8 ||| v % 256 = v := by
  rw [Nat.shiftRight_eq_div_pow]
  rw [show v / 2 ^ 8 % 256 = v / 256 by norm_num; omega]
  rw [word_eq _ _ (Nat.mod_lt _ (by norm_num))]
  omega



/-- Unfolding `execute_next_instruction`'s opcode fetch. -/
lemma executeNext_eq (s : CPU) :
    executeNextInstruction s =
      dispatchOpcode (s.memory.read s.pc)
        { s with pc := (s.pc + 1) % 65536, cycles := s.cycles + 1 } := rfl

lemma dispatch_ldaAbsoluteX (c : CPU) : dispatchOpcode 0xBD c = some (ldaAbsoluteX c) := rfl
lemma dispatch_ldaAbsoluteY (c : CPU) : dispatchOpcode 0xB9 c = some (ldaAbsoluteY c) := rfl
lemma dispatch_ldaIndirectY (c : CPU) : dispatchOpcode 0xB1 c = some (ldaIndirectY c) := rfl
lemma dispatch_ldxAbsoluteY (c : CPU) : dispatchOpcode 0xBE c = some (ldxAbsoluteY c) := rfl
lemma dispatch_ldyAbsoluteX (c : CPU) : dispatchOpcode 0xBC c = some (ldyAbsoluteX c) := rfl
lemma dispatch_tsx (c : CPU) : dispatchOpcode 0xBA c = some (tsx c) := rfl
lemma dispatch_jmpInd (c : CPU) : dispatchOpcode 0x6C c = some (jmpInd c) := rfl
lemma dispatch_jsr (c : CPU) : dispatchOpcode 0x20 c = jsr c := rfl
lemma dispatch_rts (c : CPU) : dispatchOpcode 0x60 c = rts c := rfl

lemma exec_ldaImmediate (s : CPU) (h : s.memory.read s.pc = 0xA9) :
    executeNextInstruction s =
      some (ldaSetStatus
        { s with
          acc := s.memory.read ((s.pc + 1) % 65536)
          pc := ((s.pc + 1) % 65536 + 1) % 65536
          cycles := s.cycles + 1 + 1 }) := by
  rw [executeNext_eq, h]
  rfl

lemma exec_ldaZeroPage (s : CPU) (h : s.memory.read s.pc = 0xA5) :
    executeNextInstruction s =
      some (ldaSetStatus
        { s with
          acc := s.memory.read (s.memory.read ((s.pc + 1) % 65536))
          pc := ((s.pc + 1) % 65536 + 1) % 65536
          cycles := s.cycles + 1 + 1 + 1 }) := by
  rw [executeNext_eq, h]
  rfl

lemma exec_ldaZeroPageX (s : CPU) (h : s.memory.read s.pc = 0xB5) :
    executeNextInstruction s =
      some (ldaSetStatus
        { s with
          acc := s.memory.read ((s.x + s.memory.read ((s.pc + 1) % 65536)) % 256)
          pc := ((s.pc + 1) % 65536 + 1) % 65536
          cycles := s.cycles + 1 + 1 + 1 + 1 }) := by
  rw [executeNext_eq, h]
  rfl

lemma exec_ldaAbsolute (s : CPU) (h : s.memory.read s.pc = 0xAD) :
    executeNextInstruction s =
      some (ldaSetStatus
        { s with
          acc := s.memory.read (s.memory.read (((s.pc + 1) % 65536 + 1) % 65536) <<< 8 ||| s.memory.read ((s.pc + 1) % 65536))
          pc := (((s.pc + 1) % 65536 + 1) % 65536 + 1) % 65536
          cycles := s.cycles + 1 + 1 + 1 + 1 }) := by
  rw [executeNext_eq, h]
  rfl

lemma exec_ldaAbsoluteX (s : CPU) (h : s.memory.read s.pc = 0xBD) :
    executeNextInstruction s =
      some (ldaSetStatus
        { s with
          acc := s.memory.read (((s.memory.read (((s.pc + 1) % 65536 + 1) % 65536) <<< 8 ||| s.memory.read ((s.pc + 1) % 65536)) + s.x) % 65536)
          pc := (((s.pc + 1) % 65536 + 1) % 65536 + 1) % 65536
          cycles :=
            (if CPU.pageCrossed (s.memory.read (((s.pc + 1) % 65536 + 1) % 65536) <<< 8 ||| s.memory.read ((s.pc + 1) % 65536))
                (((s.memory.read (((s.pc + 1) % 65536 + 1) % 65536) <<< 8 ||| s.memory.read ((s.pc + 1) % 65536)) + s.x) % 65536)
             then s.cycles + 1 + 1 + 1 + 1 else s.cycles + 1 + 1 + 1) + 1 }) := by
  rw [executeNext_eq, h, dispatch_ldaAbsoluteX]
  simp only [ldaAbsoluteX, CPU.fetchAddr, CPU.fetchByte, CPU.incrementPc, CPU.readByte, CPU.readAddr]
  split <;> rfl

lemma exec_ldaAbsoluteY (s : CPU) (h : s.memory.read s.pc = 0xB9) :
    executeNextInstruction s =
      some (ldaSetStatus
        { s with
          acc := s.memory.read (((s.memory.read (((s.pc + 1) % 65536 + 1) % 65536) <<< 8 ||| s.memory.read ((s.pc + 1) % 65536)) + s.y) % 65536)
          pc := (((s.pc + 1) % 65536 + 1) % 65536 + 1) % 65536
          cycles :=
            (if CPU.pageCrossed (s.memory.read (((s.pc + 1) % 65536 + 1) % 65536) <<< 8 ||| s.memory.read ((s.pc + 1) % 65536))
                (((s.memory.read (((s.pc + 1) % 65536 + 1) % 65536) <<< 8 ||| s.memory.read ((s.pc + 1) % 65536)) + s.y) % 65536)
             then s.cycles + 1 + 1 + 1 + 1 else s.cycles + 1 + 1 + 1) + 1 }) := by
  rw [executeNext_eq, h, dispatch_ldaAbsoluteY]
  simp only [ldaAbsoluteY, CPU.fetchAddr, CPU.fetchByte, CPU.incrementPc, CPU.readByte, CPU.readAddr]
  split <;> rfl

lemma exec_ldaIndirectX (s : CPU) (h : s.memory.read s.pc = 0xA1) :
    executeNextInstruction s =
      some (ldaSetStatus
        { s with
          acc := s.memory.read (s.memory.read (((s.memory.read ((s.pc + 1) % 65536) + s.x) % 256 + 1) % 256) <<< 8 ||| s.memory.read ((s.memory.read ((s.pc + 1) % 65536) + s.x) % 256))
          pc := ((s.pc + 1) % 65536 + 1) % 65536
          cycles := s.cycles + 1 + 1 + 1 + 1 + 1 + 1 }) := by
  rw [executeNext_eq, h]
  rfl

lemma exec_ldaIndirectY (s : CPU) (h : s.memory.read s.pc = 0xB1) :
    executeNextInstruction s =
      some (ldaSetStatus
        { s with
          acc := s.memory.read (((s.memory.read ((s.memory.read ((s.pc + 1) % 65536) + 1) % 256) <<< 8 ||| s.memory.read (s.memory.read ((s.pc + 1) % 65536))) + s.y) % 65536)
          pc := ((s.pc + 1) % 65536 + 1) % 65536
          cycles :=
            (if CPU.pageCrossed (s.memory.read ((s.memory.read ((s.pc + 1) % 65536) + 1) % 256) <<< 8 ||| s.memory.read (s.memory.read ((s.pc + 1) % 65536)))
                (((s.memory.read ((s.memory.read ((s.pc + 1) % 65536) + 1) % 256) <<< 8 ||| s.memory.read (s.memory.read ((s.pc + 1) % 65536))) + s.y) % 65536)
             then s.cycles + 1 + 1 + 1 + 1 + 1 else s.cycles + 1 + 1 + 1 + 1) + 1 }) := by
  rw [executeNext_eq, h, dispatch_ldaIndirectY]
  simp only [ldaIndirectY, CPU.fetchAddr, CPU.fetchByte, CPU.incrementPc, CPU.readByte, CPU.readAddr]
  split <;> rfl

lemma exec_ldxImmediate (s : CPU) (h : s.memory.read s.pc = 0xA2) :
    executeNextInstruction s =
      some (ldxSetStatus
        { s with
          x := s.memory.read ((s.pc + 1) % 65536)
          pc := ((s.pc + 1) % 65536 + 1) % 65536
          cycles := s.cycles + 1 + 1 }) := by
  rw [executeNext_eq, h]
  rfl

lemma exec_ldxZeroPage (s : CPU) (h : s.memory.read s.pc = 0xA6) :
    executeNextInstruction s =
      some (ldxSetStatus
        { s with
          x := s.memory.read (s.memory.read ((s.pc + 1) % 65536))
          pc := ((s.pc + 1) % 65536 + 1) % 65536
          cycles := s.cycles + 1 + 1 + 1 }) := by
  rw [executeNext_eq, h]
  rfl

lemma exec_ldxZeroPageY (s : CPU) (h : s.memory.read s.pc = 0xB6) :
    executeNextInstruction s =
      some (ldxSetStatus
        { s with
          x := s.memory.read ((s.y + s.memory.read ((s.pc + 1) % 65536)) % 256)
          pc := ((s.pc + 1) % 65536 + 1) % 65536
          cycles := s.cycles + 1 + 1 + 1 + 1 }) := by
  rw [executeNext_eq, h]
  rfl

lemma exec_ldxAbsolute (s : CPU) (h : s.memory.read s.pc = 0xAE) :
    executeNextInstruction s =
      some (ldxSetStatus
        { s with
          x := s.memory.read (s.memory.read (((s.pc + 1) % 65536 + 1) % 65536) <<< 8 ||| s.memory.read ((s.pc + 1) % 65536))
          pc := (((s.pc + 1) % 65536 + 1) % 65536 + 1) % 65536
          cycles := s.cycles + 1 + 1 + 1 + 1 }) := by
  rw [executeNext_eq, h]
  rfl

lemma exec_ldxAbsoluteY (s : CPU) (h : s.memory.read s.pc = 0xBE) :
    executeNextInstruction s =
      some (ldxSetStatus
        { s with
          x := s.memory.read (((s.memory.read (((s.pc + 1) % 65536 + 1) % 65536) <<< 8 ||| s.memory.read ((s.pc + 1) % 65536)) + s.y) % 65536)
          pc := (((s.pc + 1) % 65536 + 1) % 65536 + 1) % 65536
          cycles :=
            (if CPU.pageCrossed (s.memory.read (((s.pc + 1) % 65536 + 1) % 65536) <<< 8 ||| s.memory.read ((s.pc + 1) % 65536))
                (((s.memory.read (((s.pc + 1) % 65536 + 1) % 65536) <<< 8 ||| s.memory.read ((s.pc + 1) % 65536)) + s.y) % 65536)
             then s.cycles + 1 + 1 + 1 + 1 else s.cycles + 1 + 1 + 1) + 1 }) := by
  rw [executeNext_eq, h, dispatch_ldxAbsoluteY]
  simp only [ldxAbsoluteY, CPU.fetchAddr, CPU.fetchByte, CPU.incrementPc, CPU.readByte, CPU.readAddr]
  split <;> rfl

lemma exec_ldyImmediate (s : CPU) (h : s.memory.read s.pc = 0xA0) :
    executeNextInstruction s =
      some (ldySetStatus
        { s with
          y := s.memory.read ((s.pc + 1) % 65536)
          pc := ((s.pc + 1) % 65536 + 1) % 65536
          cycles := s.cycles + 1 + 1 }) := by
  rw [executeNext_eq, h]
  rfl

lemma exec_ldyZeroPage (s : CPU) (h : s.memory.read s.pc = 0xA4) :
    executeNextInstruction s =
      some (ldySetStatus
        { s with
          y := s.memory.read (s.memory.read ((s.pc + 1) % 65536))
          pc := ((s.pc + 1) % 65536 + 1) % 65536
          cycles := s.cycles + 1 + 1 + 1 }) := by
  rw [executeNext_eq, h]
  rfl

lemma exec_ldyZeroPageX (s : CPU) (h : s.memory.read s.pc = 0xB4) :
    executeNextInstruction s =
      some (ldySetStatus
        { s with
          y := s.memory.read ((s.x + s.memory.read ((s.pc + 1) % 65536)) % 256)
          pc := ((s.pc + 1) % 65536 + 1) % 65536
          cycles := s.cycles + 1 + 1 + 1 + 1 }) := by
  rw [executeNext_eq, h]
  rfl

lemma exec_ldyAbsolute (s : CPU) (h : s.memory.read s.pc = 0xAC) :
    executeNextInstruction s =
      some (ldySetStatus
        { s with
          y := s.memory.read (s.memory.read (((s.pc + 1) % 65536 + 1) % 65536) <<< 8 ||| s.memory.read ((s.pc + 1) % 65536))
          pc := (((s.pc + 1) % 65536 + 1) % 65536 + 1) % 65536
          cycles := s.cycles + 1 + 1 + 1 + 1 }) := by
  rw [executeNext_eq, h]
  rfl

lemma exec_ldyAbsoluteX (s : CPU) (h : s.memory.read s.pc = 0xBC) :
    executeNextInstruction s =
      some (ldySetStatus
        { s with
          y := s.memory.read (((s.memory.read (((s.pc + 1) % 65536 + 1) % 65536) <<< 8 ||| s.memory.read ((s.pc + 1) % 65536)) + s.x) % 65536)
          pc := (((s.pc + 1) % 65536 + 1) % 65536 + 1) % 65536
          cycles :=
            (if CPU.pageCrossed (s.memory.read (((s.pc + 1) % 65536 + 1) % 65536) <<< 8 ||| s.memory.read ((s.pc + 1) % 65536))
                (((s.memory.read (((s.pc + 1) % 65536 + 1) % 65536) <<< 8 ||| s.memory.read ((s.pc + 1) % 65536)) + s.x) % 65536)
             then s.cycles + 1 + 1 + 1 + 1 else s.cycles + 1 + 1 + 1) + 1 }) := by
  rw [executeNext_eq, h, dispatch_ldyAbsoluteX]
  simp only [ldyAbsoluteX, CPU.fetchAddr, CPU.fetchByte, CPU.incrementPc, CPU.readByte, CPU.readAddr]
  split <;> rfl

lemma exec_pha (s : CPU) (h : s.memory.read s.pc = 0x48) :
    executeNextInstruction s =
      some ({ s with
          memory := s.memory.write s.acc (s.sp % 256 ||| SYS_STACK_ADDR_END)
          sp := (s.sp + 255) % 256
          pc := (s.pc + 1) % 65536
          cycles := s.cycles + 1 + 1 + 1 }) := by
  rw [executeNext_eq, h]
  rfl

lemma exec_php (s : CPU) (h : s.memory.read s.pc = 0x08) :
    executeNextInstruction s =
      some ({ s with
          memory := s.memory.write s.status (s.sp % 256 ||| SYS_STACK_ADDR_END)
          sp := (s.sp + 255) % 256
          pc := (s.pc + 1) % 65536
          cycles := s.cycles + 1 + 1 + 1 }) := by
  rw [executeNext_eq, h]
  rfl

lemma exec_pla (s : CPU) (h : s.memory.read s.pc = 0x68) :
    executeNextInstruction s =
      some (plaSetStatus
        { s with
          acc := s.memory.read ((s.sp + 1) % 256 ||| SYS_STACK_ADDR_END)
          sp := (s.sp + 1) % 256
          pc := (s.pc + 1) % 65536
          cycles := s.cycles + 1 + 2 + 1 }) := by
  rw [executeNext_eq, h]
  rfl

lemma exec_plp (s : CPU) (h : s.memory.read s.pc = 0x28) :
    executeNextInstruction s =
      some ({ s with
          status := s.memory.read ((s.sp + 1) % 256 ||| SYS_STACK_ADDR_END)
          sp := (s.sp + 1) % 256
          pc := (s.pc + 1) % 65536
          cycles := s.cycles + 1 + 2 + 1 }) := by
  rw [executeNext_eq, h]
  rfl

lemma exec_tsx (s : CPU) (h : s.memory.read s.pc = 0xBA) :
    executeNextInstruction s =
      some { tsxSetStatus
               { s with x := s.sp, pc := (s.pc + 1) % 65536, cycles := s.cycles + 1 } with
             cycles := s.cycles + 1 + 1 } := by
  rw [executeNext_eq, h, dispatch_tsx]
  simp only [tsx, tsxSetStatus]
  split_ifs <;> rfl

lemma exec_txs (s : CPU) (h : s.memory.read s.pc = 0x9A) :
    executeNextInstruction s =
      some ({ s with
          sp := s.x
          pc := (s.pc + 1) % 65536
          cycles := s.cycles + 1 + 1 }) := by
  rw [executeNext_eq, h]
  rfl

lemma exec_staZeroPage (s : CPU) (h : s.memory.read s.pc = 0x85) :
    executeNextInstruction s =
      some ({ s with
          memory := s.memory.write s.acc (s.memory.read ((s.pc + 1) % 65536))
          pc := ((s.pc + 1) % 65536 + 1) % 65536
          cycles := s.cycles + 1 + 1 + 1 }) := by
  rw [executeNext_eq, h]
  rfl

lemma exec_staZeroPageX (s : CPU) (h : s.memory.read s.pc = 0x95) :
    executeNextInstruction s =
      some ({ s with
          memory := s.memory.write s.acc ((s.memory.read ((s.pc + 1) % 65536) + s.x) % 256)
          pc := ((s.pc + 1) % 65536 + 1) % 65536
          cycles := s.cycles + 1 + 1 + 1 + 1 }) := by
  rw [executeNext_eq, h]
  rfl

lemma exec_staAbsolute (s : CPU) (h : s.memory.read s.pc = 0x8D) :
    executeNextInstruction s =
      some ({ s with
          memory := s.memory.write s.acc (s.memory.read (((s.pc + 1) % 65536 + 1) % 65536) <<< 8 ||| s.memory.read ((s.pc + 1) % 65536))
          pc := (((s.pc + 1) % 65536 + 1) % 65536 + 1) % 65536
          cycles := s.cycles + 1 + 1 + 1 + 1 }) := by
  rw [executeNext_eq, h]
  rfl

lemma exec_staAbsoluteX (s : CPU) (h : s.memory.read s.pc = 0x9D) :
    executeNextInstruction s =
      some ({ s with
          memory := s.memory.write s.acc (((s.memory.read (((s.pc + 1) % 65536 + 1) % 65536) <<< 8 ||| s.memory.read ((s.pc + 1) % 65536)) + s.x) % 65536)
          pc := (((s.pc + 1) % 65536 + 1) % 65536 + 1) % 65536
          cycles := s.cycles + 1 + 1 + 1 + 1 + 1 }) := by
  rw [executeNext_eq, h]
  rfl

lemma exec_staAbsoluteY (s : CPU) (h : s.memory.read s.pc = 0x99) :
    executeNextInstruction s =
      some ({ s with
          memory := s.memory.write s.acc (((s.memory.read (((s.pc + 1) % 65536 + 1) % 65536) <<< 8 ||| s.memory.read ((s.pc + 1) % 65536)) + s.y) % 65536)
          pc := (((s.pc + 1) % 65536 + 1) % 65536 + 1) % 65536
          cycles := s.cycles + 1 + 1 + 1 + 1 + 1 }) := by
  rw [executeNext_eq, h]
  rfl

lemma exec_staIndirectX (s : CPU) (h : s.memory.read s.pc = 0x81) :
    executeNextInstruction s =
      some ({ s with
          memory := s.memory.write s.acc (s.memory.read (((s.memory.read ((s.pc + 1) % 65536) + s.x) % 256 + 1) % 256) <<< 8 ||| s.memory.read ((s.memory.read ((s.pc + 1) % 65536) + s.x) % 256))
          pc := ((s.pc + 1) % 65536 + 1) % 65536
          cycles := s.cycles + 1 + 1 + 1 + 1 + 1 + 1 }) := by
  rw [executeNext_eq, h]
  rfl

lemma exec_staIndirectY (s : CPU) (h : s.memory.read s.pc = 0x91) :
    executeNextInstruction s =
      some ({ s with
          memory := s.memory.write s.acc (((s.memory.read ((s.memory.read ((s.pc + 1) % 65536) + 1) % 256) <<< 8 ||| s.memory.read (s.memory.read ((s.pc + 1) % 65536))) + s.y) % 65536)
          pc := ((s.pc + 1) % 65536 + 1) % 65536
          cycles := s.cycles + 1 + 1 + 1 + 1 + 1 + 1 }) := by
  rw [executeNext_eq, h]
  rfl

lemma exec_stxZeroPage (s : CPU) (h : s.memory.read s.pc = 0x86) :
    executeNextInstruction s =
      some ({ s with
          memory := s.memory.write s.x (s.memory.read ((s.pc + 1) % 65536))
          pc := ((s.pc + 1) % 65536 + 1) % 65536
          cycles := s.cycles + 1 + 1 + 1 }) := by
  rw [executeNext_eq, h]
  rfl

lemma exec_stxZeroPageY (s : CPU) (h : s.memory.read s.pc = 0x96) :
    executeNextInstruction s =
      some ({ s with
          memory := s.memory.write s.x ((s.memory.read ((s.pc + 1) % 65536) + s.y) % 256)
          pc := ((s.pc + 1) % 65536 + 1) % 65536
          cycles := s.cycles + 1 + 1 + 1 + 1 }) := by
  rw [executeNext_eq, h]
  rfl

lemma exec_stxAbsolute (s : CPU) (h : s.memory.read s.pc = 0x8E) :
    executeNextInstruction s =
      some ({ s with
          memory := s.memory.write s.x (s.memory.read (((s.pc + 1) % 65536 + 1) % 65536) <<< 8 ||| s.memory.read ((s.pc + 1) % 65536))
          pc := (((s.pc + 1) % 65536 + 1) % 65536 + 1) % 65536
          cycles := s.cycles + 1 + 1 + 1 + 1 }) := by
  rw [executeNext_eq, h]
  rfl

lemma exec_styZeroPage (s : CPU) (h : s.memory.read s.pc = 0x84) :
    executeNextInstruction s =
      some ({ s with
          memory := s.memory.write s.y (s.memory.read ((s.pc + 1) % 65536))
          pc := ((s.pc + 1) % 65536 + 1) % 65536
          cycles := s.cycles + 1 + 1 + 1 }) := by
  rw [executeNext_eq, h]
  rfl

lemma exec_styZeroPageX (s : CPU) (h : s.memory.read s.pc = 0x94) :
    executeNextInstruction s =
      some ({ s with
          memory := s.memory.write s.y ((s.memory.read ((s.pc + 1) % 65536) + s.x) % 256)
          pc := ((s.pc + 1) % 65536 + 1) % 65536
          cycles := s.cycles + 1 + 1 + 1 + 1 }) := by
  rw [executeNext_eq, h]
  rfl

lemma exec_styAbsolute (s : CPU) (h : s.memory.read s.pc = 0x8C) :
    executeNextInstruction s =
      some ({ s with
          memory := s.memory.write s.y (s.memory.read (((s.pc + 1) % 65536 + 1) % 65536) <<< 8 ||| s.memory.read ((s.pc + 1) % 65536))
          pc := (((s.pc + 1) % 65536 + 1) % 65536 + 1) % 65536
          cycles := s.cycles + 1 + 1 + 1 + 1 }) := by
  rw [executeNext_eq, h]
  rfl

lemma exec_jmpAbs (s : CPU) (h : s.memory.read s.pc = 0x4C) :
    executeNextInstruction s =
      some ({ s with
          pc := s.memory.read (((s.pc + 1) % 65536 + 1) % 65536) <<< 8 ||| s.memory.read ((s.pc + 1) % 65536)
          cycles := s.cycles + 1 + 1 + 1 }) := by
  rw [executeNext_eq, h]
  rfl

lemma and125_and2 (st : Nat) : (st &&& 125) &&& 2 = 0 := by
  rw [Nat.land_assoc, show (125 &&& 2 : Nat) = 0 from rfl, Nat.and_zero]

lemma and125_and128 (st : Nat) : (st &&& 125) &&& 128 = 0 := by
  rw [Nat.land_assoc, show (125 &&& 128 : Nat) = 0 from rfl, Nat.and_zero]

lemma and125_and125 (st : Nat) : (st &&& 125) &&& 125 = st &&& 125 := by
  rw [Nat.land_assoc, show (125 &&& 125 : Nat) = 125 from rfl]

lemma byteIsNegativeInt_iff (v : Nat) : CPU.byteIsNegativeInt v = true ↔ v &&& 128 ≠ 0 := by
  unfold CPU.byteIsNegativeInt
  rw [show (0x80 : Nat) = 128 from rfl, bne_iff_ne]

lemma znStatus_zero_iff (st v : Nat) : znStatus st v &&& CSF_ZERO ≠ 0 ↔ v = 0 := by
  unfold znStatus
  rw [show (0xFF ^^^ (CSF_ZERO ||| CSF_NEGATIVE) : Nat) = 125 from rfl,
    show (CSF_ZERO : Nat) = 2 from rfl, show (CSF_NEGATIVE : Nat) = 128 from rfl]
  by_cases hv : v = 0
  · rw [if_pos hv, or_and_distrib, and125_and2, Nat.zero_or]
    simp [hv]
  · rw [if_neg hv]
    by_cases hneg : CPU.byteIsNegativeInt v = true
    · rw [if_pos hneg, or_and_distrib, and125_and2, Nat.zero_or,
        show (128 &&& 2 : Nat) = 0 from rfl]
      simp [hv]
    · rw [if_neg hneg, and125_and2]
      simp [hv]

lemma znStatus_neg_iff (st v : Nat) : znStatus st v &&& CSF_NEGATIVE ≠ 0 ↔ v &&& 128 ≠ 0 := by
  unfold znStatus
  rw [show (0xFF ^^^ (CSF_ZERO ||| CSF_NEGATIVE) : Nat) = 125 from rfl,
    show (CSF_ZERO : Nat) = 2 from rfl, show (CSF_NEGATIVE : Nat) = 128 from rfl]
  by_cases hv : v = 0
  · rw [if_pos hv, or_and_distrib, and125_and128, Nat.zero_or,
      show (2 &&& 128 : Nat) = 0 from rfl]
    subst hv
    simp
  · rw [if_neg hv]
    by_cases hneg : CPU.byteIsNegativeInt v = true
    · rw [if_pos hneg, or_and_distrib, and125_and128, Nat.zero_or]
      have := (byteIsNegativeInt_iff v).1 hneg
      simp [this]
    · rw [if_neg hneg, and125_and128]
      have : ¬(v &&& 128 ≠ 0) := fun hc => hneg ((byteIsNegativeInt_iff v).2 hc)
      simp [this]

lemma znStatus_mask (st v : Nat) : znStatus st v &&& 125 = st &&& 125 := by
  unfold znStatus
  rw [show (0xFF ^^^ (CSF_ZERO ||| CSF_NEGATIVE) : Nat) = 125 from rfl,
    show (CSF_ZERO : Nat) = 2 from rfl, show (CSF_NEGATIVE : Nat) = 128 from rfl]
  split_ifs
  · rw [or_and_distrib, and125_and125, show (2 &&& 125 : Nat) = 0 from rfl, Nat.or_zero]
  · rw [or_and_distrib, and125_and125, show (128 &&& 125 : Nat) = 0 from rfl, Nat.or_zero]
  · exact and125_and125 st

lemma ldaSetStatus_eq (c : CPU) :
    ldaSetStatus c = { c with status := znStatus c.status c.acc } := by
  simp only [ldaSetStatus, znStatus]
  split_ifs <;> rfl

lemma ldxSetStatus_eq (c : CPU) :
    ldxSetStatus c = { c with status := znStatus c.status c.x } := by
  simp only [ldxSetStatus, znStatus]
  split_ifs <;> rfl

lemma ldySetStatus_eq (c : CPU) :
    ldySetStatus c = { c with status := znStatus c.status c.y } := by
  simp only [ldySetStatus, znStatus]
  split_ifs <;> rfl

lemma plaSetStatus_eq (c : CPU) :
    plaSetStatus c = { c with status := znStatus c.status c.acc } := by
  simp only [plaSetStatus, znStatus]
  split_ifs <;> rfl

lemma tsxSetStatus_eq (c : CPU) :
    tsxSetStatus c = { c with status := znStatus c.status c.x } := by
  simp only [tsxSetStatus, znStatus]
  split_ifs <;> rfl


end MOS6502

namespace MOS6502

/-- Claim C10: `CPU::new` yields a processor whose registers, `PC`, status
and cycle counter are all 0, for any attached memory; in particular bit 5 of
`P` is 0 and `SP ≠ $FF`, so the post-reset invariants do not hold before
`reset()` is called. -/
theorem c10_new_cpu_all_zero (m : Memory) :
    (CPU.new m).acc = 0 ∧ (CPU.new m).x = 0 ∧ (CPU.new m).y = 0 ∧
    (CPU.new m).sp = 0 ∧ (CPU.new m).pc = 0 ∧ (CPU.new m).status = 0 ∧
    (CPU.new m).cycles = 0 ∧ (CPU.new m).status &&& 0x20 = 0 ∧
    (CPU.new m).sp ≠ 0xFF :=
  ⟨rfl, rfl, rfl, rfl, rfl, rfl, rfl, Nat.zero_and 0x20, by simp [CPU.new]⟩

/-- Claim C9 (code bug): the `u16` arithmetic in `jsr` (`cpu.pc - 1`) and
`rts` (`addr + 1`) is not wrapping: with the `JSR` opcode at `$FFFD` the
operand fetch leaves `PC = 0` and the subtraction underflows (a Rust
overflow panic, modelled as `none`), and an `RTS` that pops `$FFFF`
overflows the addition likewise, instead of wrapping to `$FFFF` / `$0000`
as the claim states. -/
theorem c9_jsr_rts_arithmetic_traps :
    executeNextInstruction c9aCPU = none ∧ executeNextInstruction c9bCPU = none :=
  ⟨rfl, rfl⟩

/-- Claim C2 (code bug): `plp` assigns the popped byte to `P` verbatim.
Popping `$00` leaves `P = $00` (bit 5 cleared, contradicting `U=1`), and
popping `$30` leaves `P = $30` (bit 4 set, contradicting `B=0`). -/
theorem c2_plp_restores_verbatim :
    (executeNextInstruction c2CPU).map CPU.status = some 0x00 ∧
    (executeNextInstruction c2bCPU).map CPU.status = some 0x30 ∧
    (0x00 : Nat) &&& 0x20 = 0 ∧ (0x30 : Nat) &&& 0x10 ≠ 0 :=
  ⟨rfl, rfl, rfl, by decide⟩

/-- Claim C3 (code bug): `php` pushes `P` verbatim; with `P = $20` the byte
written to `$01FF` is `$20`, not `$20 ||| $10 = $30` as the claim (and the
6502 hardware) requires.  `SP`, `P` and the cycle count do match the claim. -/
theorem c3_php_pushes_verbatim :
    (executeNextInstruction c3CPU).map (fun s => s.memory.read 0x1FF) = some 0x20 ∧
    (executeNextInstruction c3CPU).map CPU.status = some 0x20 ∧
    (executeNextInstruction c3CPU).map CPU.sp = some 0xFE ∧
    (executeNextInstruction c3CPU).map CPU.cycles = some 10 ∧
    (0x20 : Nat) ||| 0x10 = 0x30 ∧ (0x20 : Nat) ≠ 0x30 :=
  ⟨rfl, rfl, rfl, rfl, rfl, by decide⟩

/-- Claim C1 (code bug): bit 5 of `P` is not invariant under execution from
RESET: the documented-opcode program `LDA #$00 ; PHA ; PLP` starting at the
reset vector leaves `P = $00`, so bit 5 reads 0, even though it is 1
immediately after RESET. -/
theorem c1_unused_flag_not_invariant :
    ((CPU.new c1Mem).reset).status &&& 0x20 = 0x20 ∧
    (stepN 3 ((CPU.new c1Mem).reset)).map (fun s => s.status &&& 0x20) = some 0 :=
  ⟨rfl, rfl⟩

/-- Claim C5: `JMP` indirect with operand word `$FFFC` performs the full
RESET sequence instead of a vector read through the timed primitives:
`A`/`X`/`Y` are zeroed, `SP = $FF`, `P = $20`, `PC` is loaded from the
reset vector, the memory is untouched and the cycle counter is set back to
the absolute value 7. -/
theorem c5_jmp_ind_reset (s : CPU)
    (h : s.memory.read s.pc = 0x6C)
    (hop : s.memory.read ((s.pc + 2) % 65536) <<< 8 |||
      s.memory.read ((s.pc + 1) % 65536) = 0xFFFC) :
    executeNextInstruction s =
      some { s with
        acc := 0
        x := 0
        y := 0
        sp := 0xFF
        pc := s.memory.read 0xFFFD <<< 8 ||| s.memory.read 0xFFFC
        status := 0x20
        cycles := 7 } := by
  rw [executeNext_eq, h, dispatch_jmpInd]
  simp only [jmpInd, CPU.fetchAddr, CPU.fetchByte, CPU.incrementPc, CPU.readAddr,
    CPU.readByte, POWER_ON_RESET_ADDR_L]
  rw [show ((s.pc + 1) % 65536 + 1) % 65536 = (s.pc + 2) % 65536 from by omega]
  rw [hop]
  rw [if_neg (by decide), if_pos (Eq.refl (0xFFFC : Nat))]
  try rfl

/-- Witness for C5 at a concrete state: 100 cycles before the instruction,
7 after — the cycle counter decreased. -/
theorem c5_jmp_ind_reset_witness :
    executeNextInstruction c5WitCPU =
      some { c5WitCPU with
        acc := 0
        x := 0
        y := 0
        sp := 0xFF
        pc := 0x200
        status := 0x20
        cycles := 7 } ∧ 7 < c5WitCPU.cycles :=
  ⟨c5_jmp_ind_reset c5WitCPU rfl rfl, by decide⟩

/-- Claim C4 (counterexample): with operand word `$FFFC` the instruction
does not behave as the claim states: `A` changes from 1 to 0 and the cycle
counter goes to the absolute value 7 instead of advancing by 5. -/
theorem c4_jmp_ind_cex :
    c4CexCPU.acc = 1 ∧ (executeNextInstruction c4CexCPU).map CPU.acc = some 0 ∧
    c4CexCPU.cycles = 50 ∧ (executeNextInstruction c4CexCPU).map CPU.cycles = some 7 :=
  ⟨rfl, rfl, rfl, rfl⟩

/-- Claim C4 (amended): for every operand word other than `$FFFC`, `JMP`
indirect sets `PC` to the little-endian word read from `addr16`/`addr16+1`
— with the page-boundary bug sourcing the high byte from `addr16 & $FF00`
when the low byte of `addr16` is `$FF` — consumes exactly 5 cycles and
leaves `A`, `X`, `Y`, `SP`, `P` and the memory unchanged. -/
theorem c4_jmp_ind_amended (s : CPU)
    (h : s.memory.read s.pc = 0x6C)
    (hne : s.memory.read ((s.pc + 2) % 65536) <<< 8 |||
      s.memory.read ((s.pc + 1) % 65536) ≠ 0xFFFC) :
    executeNextInstruction s =
      some { s with
        pc :=
          if (s.memory.read ((s.pc + 2) % 65536) <<< 8 |||
              s.memory.read ((s.pc + 1) % 65536)) &&& 0x00FF = 0x00FF then
            s.memory.read ((s.memory.read ((s.pc + 2) % 65536) <<< 8 |||
                s.memory.read ((s.pc + 1) % 65536)) &&& 0xFF00) <<< 8 |||
              s.memory.read (s.memory.read ((s.pc + 2) % 65536) <<< 8 |||
                s.memory.read ((s.pc + 1) % 65536))
          else
            s.memory.read ((s.memory.read ((s.pc + 2) % 65536) <<< 8 |||
                s.memory.read ((s.pc + 1) % 65536)) + 1) <<< 8 |||
              s.memory.read (s.memory.read ((s.pc + 2) % 65536) <<< 8 |||
                s.memory.read ((s.pc + 1) % 65536))
        cycles := s.cycles + 1 + 1 + 1 + 1 + 1 } := by
  rw [executeNext_eq, h, dispatch_jmpInd]
  simp only [jmpInd, CPU.fetchAddr, CPU.fetchByte, CPU.incrementPc, CPU.readAddr,
    CPU.readByte, POWER_ON_RESET_ADDR_L]
  rw [show ((s.pc + 1) % 65536 + 1) % 65536 = (s.pc + 2) % 65536 from by omega]
  by_cases hb : (s.memory.read ((s.pc + 2) % 65536) <<< 8 |||
      s.memory.read ((s.pc + 1) % 65536)) &&& 0x00FF = 0x00FF
  · rw [if_pos hb, if_pos hb]
    try rfl
  · rw [if_neg hb, if_neg hb, if_neg hne]
    try rfl

/-- Witness for the amended C4 at the page-boundary-bug input of §8 item 6:
`JMP ($30FF)` with `$30FF = $76` and `$3000 = $11` lands at `$1176` in 5
cycles. -/
theorem c4_jmp_ind_amended_witness :
    executeNextInstruction c4WitCPU =
      some { c4WitCPU with pc := 0x1176, cycles := 15 } :=
  c4_jmp_ind_amended c4WitCPU rfl (by decide)

end MOS6502

namespace MOS6502

lemma Memory.read_lt (m : Memory) (addr : Nat) : m.read addr < 256 :=
  Nat.mod_lt _ (by omega)

/-- Rewrites the engine's `page_crossed` test into the claim's high-byte
comparison (for 16-bit addresses). -/
lemma if_pageCrossed_eq (w e : Nat) (hw : w < 65536) (he : e < 65536) (x y : Nat) :
    (if CPU.pageCrossed w e then x else y) = (if e / 256 ≠ w / 256 then x else y) := by
  by_cases hc : e / 256 ≠ w / 256
  · rw [if_pos ((pageCrossed_iff w e hw he).2 (Ne.symm hc)), if_pos hc]
  · have : ¬(CPU.pageCrossed w e = true) := fun hcc =>
      hc (Ne.symm ((pageCrossed_iff w e hw he).1 hcc))
    rw [if_neg this, if_neg hc]

lemma setStatusA_props (c : CPU) :
    ((ldaSetStatus c).status &&& 0x02 ≠ 0 ↔ (ldaSetStatus c).acc = 0) ∧
    ((ldaSetStatus c).status &&& 0x80 ≠ 0 ↔ (ldaSetStatus c).acc &&& 0x80 ≠ 0) ∧
    (ldaSetStatus c).status &&& 0x7D = c.status &&& 0x7D := by
  rw [ldaSetStatus_eq]
  exact ⟨znStatus_zero_iff _ _, znStatus_neg_iff _ _, znStatus_mask _ _⟩

lemma setStatusPla_props (c : CPU) :
    ((plaSetStatus c).status &&& 0x02 ≠ 0 ↔ (plaSetStatus c).acc = 0) ∧
    ((plaSetStatus c).status &&& 0x80 ≠ 0 ↔ (plaSetStatus c).acc &&& 0x80 ≠ 0) ∧
    (plaSetStatus c).status &&& 0x7D = c.status &&& 0x7D := by
  rw [plaSetStatus_eq]
  exact ⟨znStatus_zero_iff _ _, znStatus_neg_iff _ _, znStatus_mask _ _⟩

lemma setStatusX_props (c : CPU) :
    ((ldxSetStatus c).status &&& 0x02 ≠ 0 ↔ (ldxSetStatus c).x = 0) ∧
    ((ldxSetStatus c).status &&& 0x80 ≠ 0 ↔ (ldxSetStatus c).x &&& 0x80 ≠ 0) ∧
    (ldxSetStatus c).status &&& 0x7D = c.status &&& 0x7D := by
  rw [ldxSetStatus_eq]
  exact ⟨znStatus_zero_iff _ _, znStatus_neg_iff _ _, znStatus_mask _ _⟩

lemma setStatusTsx_props (c : CPU) (k : Nat) :
    (({ tsxSetStatus c with cycles := k }).status &&& 0x02 ≠ 0 ↔
      ({ tsxSetStatus c with cycles := k }).x = 0) ∧
    (({ tsxSetStatus c with cycles := k }).status &&& 0x80 ≠ 0 ↔
      ({ tsxSetStatus c with cycles := k }).x &&& 0x80 ≠ 0) ∧
    ({ tsxSetStatus c with cycles := k }).status &&& 0x7D = c.status &&& 0x7D := by
  rw [tsxSetStatus_eq]
  exact ⟨znStatus_zero_iff _ _, znStatus_neg_iff _ _, znStatus_mask _ _⟩

lemma setStatusY_props (c : CPU) :
    ((ldySetStatus c).status &&& 0x02 ≠ 0 ↔ (ldySetStatus c).y = 0) ∧
    ((ldySetStatus c).status &&& 0x80 ≠ 0 ↔ (ldySetStatus c).y &&& 0x80 ≠ 0) ∧
    (ldySetStatus c).status &&& 0x7D = c.status &&& 0x7D := by
  rw [ldySetStatus_eq]
  exact ⟨znStatus_zero_iff _ _, znStatus_neg_iff _ _, znStatus_mask _ _⟩

end MOS6502

namespace MOS6502

/-- Claim C6: for the read instructions with indexed absolute or
indirect-Y addressing (`LDA` abs,X / abs,Y; `LDX` abs,Y; `LDY` abs,X;
`LDA` (ind),Y) the cycle count exceeds the base cost by exactly 1 iff the
high byte of the effective address differs from the high byte of the base
address, while the stores `STA` abs,X / abs,Y / (ind),Y consume the extra
cycle unconditionally. -/
theorem c6_page_crossing_cycles :
    (∀ s s' : CPU, s.memory.read s.pc = 0xBD → executeNextInstruction s = some s' →
      s'.cycles = s.cycles +
        (if ((s.memory.read ((s.pc + 2) % 65536) <<< 8 ||| s.memory.read ((s.pc + 1) % 65536)) + s.x) % 65536 / 256 ≠
            (s.memory.read ((s.pc + 2) % 65536) <<< 8 ||| s.memory.read ((s.pc + 1) % 65536)) / 256
         then 5 else 4)) ∧
    (∀ s s' : CPU, s.memory.read s.pc = 0xB9 → executeNextInstruction s = some s' →
      s'.cycles = s.cycles +
        (if ((s.memory.read ((s.pc + 2) % 65536) <<< 8 ||| s.memory.read ((s.pc + 1) % 65536)) + s.y) % 65536 / 256 ≠
            (s.memory.read ((s.pc + 2) % 65536) <<< 8 ||| s.memory.read ((s.pc + 1) % 65536)) / 256
         then 5 else 4)) ∧
    (∀ s s' : CPU, s.memory.read s.pc = 0xBE → executeNextInstruction s = some s' →
      s'.cycles = s.cycles +
        (if ((s.memory.read ((s.pc + 2) % 65536) <<< 8 ||| s.memory.read ((s.pc + 1) % 65536)) + s.y) % 65536 / 256 ≠
            (s.memory.read ((s.pc + 2) % 65536) <<< 8 ||| s.memory.read ((s.pc + 1) % 65536)) / 256
         then 5 else 4)) ∧
    (∀ s s' : CPU, s.memory.read s.pc = 0xBC → executeNextInstruction s = some s' →
      s'.cycles = s.cycles +
        (if ((s.memory.read ((s.pc + 2) % 65536) <<< 8 ||| s.memory.read ((s.pc + 1) % 65536)) + s.x) % 65536 / 256 ≠
            (s.memory.read ((s.pc + 2) % 65536) <<< 8 ||| s.memory.read ((s.pc + 1) % 65536)) / 256
         then 5 else 4)) ∧
    (∀ s s' : CPU, s.memory.read s.pc = 0xB1 → executeNextInstruction s = some s' →
      s'.cycles = s.cycles +
        (if ((s.memory.read ((s.memory.read ((s.pc + 1) % 65536) + 1) % 256) <<< 8 ||| s.memory.read (s.memory.read ((s.pc + 1) % 65536))) + s.y) % 65536 / 256 ≠
            (s.memory.read ((s.memory.read ((s.pc + 1) % 65536) + 1) % 256) <<< 8 ||| s.memory.read (s.memory.read ((s.pc + 1) % 65536))) / 256
         then 6 else 5)) ∧
    (∀ s s' : CPU, s.memory.read s.pc = 0x9D → executeNextInstruction s = some s' →
      s'.cycles = s.cycles + 5) ∧
    (∀ s s' : CPU, s.memory.read s.pc = 0x99 → executeNextInstruction s = some s' →
      s'.cycles = s.cycles + 5) ∧
    (∀ s s' : CPU, s.memory.read s.pc = 0x91 → executeNextInstruction s = some s' →
      s'.cycles = s.cycles + 6) := by
  refine ⟨?_, ?_, ?_, ?_, ?_, ?_, ?_, ?_⟩
  · intro s s' h hexec
    rw [exec_ldaAbsoluteX s h] at hexec
    injection hexec with hs'
    subst hs'
    rw [show ((s.pc + 1) % 65536 + 1) % 65536 = (s.pc + 2) % 65536 from by omega]
    simp only [ldaSetStatus_eq]
    rw [if_pageCrossed_eq _ _ (word_lt _ _ (Memory.read_lt _ _) (Memory.read_lt _ _))
      (Nat.mod_lt _ (by omega))]
    split_ifs <;> omega
  · intro s s' h hexec
    rw [exec_ldaAbsoluteY s h] at hexec
    injection hexec with hs'
    subst hs'
    rw [show ((s.pc + 1) % 65536 + 1) % 65536 = (s.pc + 2) % 65536 from by omega]
    simp only [ldaSetStatus_eq]
    rw [if_pageCrossed_eq _ _ (word_lt _ _ (Memory.read_lt _ _) (Memory.read_lt _ _))
      (Nat.mod_lt _ (by omega))]
    split_ifs <;> omega
  · intro s s' h hexec
    rw [exec_ldxAbsoluteY s h] at hexec
    injection hexec with hs'
    subst hs'
    rw [show ((s.pc + 1) % 65536 + 1) % 65536 = (s.pc + 2) % 65536 from by omega]
    simp only [ldxSetStatus_eq]
    rw [if_pageCrossed_eq _ _ (word_lt _ _ (Memory.read_lt _ _) (Memory.read_lt _ _))
      (Nat.mod_lt _ (by omega))]
    split_ifs <;> omega
  · intro s s' h hexec
    rw [exec_ldyAbsoluteX s h] at hexec
    injection hexec with hs'
    subst hs'
    rw [show ((s.pc + 1) % 65536 + 1) % 65536 = (s.pc + 2) % 65536 from by omega]
    simp only [ldySetStatus_eq]
    rw [if_pageCrossed_eq _ _ (word_lt _ _ (Memory.read_lt _ _) (Memory.read_lt _ _))
      (Nat.mod_lt _ (by omega))]
    split_ifs <;> omega
  · intro s s' h hexec
    rw [exec_ldaIndirectY s h] at hexec
    injection hexec with hs'
    subst hs'
    simp only [ldaSetStatus_eq]
    rw [if_pageCrossed_eq _ _ (word_lt _ _ (Memory.read_lt _ _) (Memory.read_lt _ _))
      (Nat.mod_lt _ (by omega))]
    split_ifs <;> omega
  · intro s s' h hexec
    rw [exec_staAbsoluteX s h] at hexec
    injection hexec with hs'
    subst hs'
    show s.cycles + 1 + 1 + 1 + 1 + 1 = s.cycles + 5
    omega
  · intro s s' h hexec
    rw [exec_staAbsoluteY s h] at hexec
    injection hexec with hs'
    subst hs'
    show s.cycles + 1 + 1 + 1 + 1 + 1 = s.cycles + 5
    omega
  · intro s s' h hexec
    rw [exec_staIndirectY s h] at hexec
    injection hexec with hs'
    subst hs'
    show s.cycles + 1 + 1 + 1 + 1 + 1 + 1 = s.cycles + 6
    omega

end MOS6502

namespace MOS6502

/-- Witness for C6: each of the eight quantified statements applied at a
concrete page-crossing machine state. -/
theorem c6_page_crossing_cycles_witness :
    ((executeNextInstruction c6w1).getD dfltCPU).cycles = 5 ∧
    ((executeNextInstruction c6w2).getD dfltCPU).cycles = 5 ∧
    ((executeNextInstruction c6w3).getD dfltCPU).cycles = 5 ∧
    ((executeNextInstruction c6w4).getD dfltCPU).cycles = 5 ∧
    ((executeNextInstruction c6w5).getD dfltCPU).cycles = 6 ∧
    ((executeNextInstruction c6w6).getD dfltCPU).cycles = 5 ∧
    ((executeNextInstruction c6w7).getD dfltCPU).cycles = 5 ∧
    ((executeNextInstruction c6w8).getD dfltCPU).cycles = 6 :=
  ⟨c6_page_crossing_cycles.1 c6w1 _ rfl rfl,
   c6_page_crossing_cycles.2.1 c6w2 _ rfl rfl,
   c6_page_crossing_cycles.2.2.1 c6w3 _ rfl rfl,
   c6_page_crossing_cycles.2.2.2.1 c6w4 _ rfl rfl,
   c6_page_crossing_cycles.2.2.2.2.1 c6w5 _ rfl rfl,
   c6_page_crossing_cycles.2.2.2.2.2.1 c6w6 _ rfl rfl,
   c6_page_crossing_cycles.2.2.2.2.2.2.1 c6w7 _ rfl rfl,
   c6_page_crossing_cycles.2.2.2.2.2.2.2 c6w8 _ rfl rfl⟩

end MOS6502

namespace MOS6502

/-- Claim C7: every instruction that writes a value into `A`, `X` or `Y`
(all `LDA`/`LDX`/`LDY` modes, `PLA`, `TSX`) sets `Z` iff the written value
is 0 and `N` iff bit 7 of the written value is set, leaving all other bits
of `P` unchanged; `TXS` and all store instructions leave `P` entirely
unchanged. -/
theorem c7_flag_updates :
    (∀ op ∈ ([0xA9, 0xA5, 0xB5, 0xAD, 0xBD, 0xB9, 0xA1, 0xB1, 0x68] : List Nat),
      ∀ s s' : CPU, s.memory.read s.pc = op → executeNextInstruction s = some s' →
        ((s'.status &&& 0x02 ≠ 0 ↔ s'.acc = 0) ∧
         (s'.status &&& 0x80 ≠ 0 ↔ s'.acc &&& 0x80 ≠ 0) ∧
         s'.status &&& 0x7D = s.status &&& 0x7D)) ∧
    (∀ op ∈ ([0xA2, 0xA6, 0xB6, 0xAE, 0xBE, 0xBA] : List Nat),
      ∀ s s' : CPU, s.memory.read s.pc = op → executeNextInstruction s = some s' →
        ((s'.status &&& 0x02 ≠ 0 ↔ s'.x = 0) ∧
         (s'.status &&& 0x80 ≠ 0 ↔ s'.x &&& 0x80 ≠ 0) ∧
         s'.status &&& 0x7D = s.status &&& 0x7D)) ∧
    (∀ op ∈ ([0xA0, 0xA4, 0xB4, 0xAC, 0xBC] : List Nat),
      ∀ s s' : CPU, s.memory.read s.pc = op → executeNextInstruction s = some s' →
        ((s'.status &&& 0x02 ≠ 0 ↔ s'.y = 0) ∧
         (s'.status &&& 0x80 ≠ 0 ↔ s'.y &&& 0x80 ≠ 0) ∧
         s'.status &&& 0x7D = s.status &&& 0x7D)) ∧
    (∀ op ∈ ([0x9A, 0x85, 0x95, 0x8D, 0x9D, 0x99, 0x81, 0x91,
              0x86, 0x96, 0x8E, 0x84, 0x94, 0x8C] : List Nat),
      ∀ s s' : CPU, s.memory.read s.pc = op → executeNextInstruction s = some s' →
        s'.status = s.status) := by
  refine ⟨?_, ?_, ?_, ?_⟩
  · intro op hop s s' h hexec
    fin_cases hop
    all_goals
      first
      | rw [exec_ldaImmediate s h] at hexec
      | rw [exec_ldaZeroPage s h] at hexec
      | rw [exec_ldaZeroPageX s h] at hexec
      | rw [exec_ldaAbsolute s h] at hexec
      | rw [exec_ldaAbsoluteX s h] at hexec
      | rw [exec_ldaAbsoluteY s h] at hexec
      | rw [exec_ldaIndirectX s h] at hexec
      | rw [exec_ldaIndirectY s h] at hexec
      | rw [exec_pla s h] at hexec
    all_goals injection hexec with hs'
    all_goals subst hs'
    all_goals
      first
      | exact setStatusA_props _
      | exact setStatusPla_props _
  · intro op hop s s' h hexec
    fin_cases hop
    all_goals
      first
      | rw [exec_ldxImmediate s h] at hexec
      | rw [exec_ldxZeroPage s h] at hexec
      | rw [exec_ldxZeroPageY s h] at hexec
      | rw [exec_ldxAbsolute s h] at hexec
      | rw [exec_ldxAbsoluteY s h] at hexec
      | rw [exec_tsx s h] at hexec
    all_goals injection hexec with hs'
    all_goals subst hs'
    all_goals
      first
      | exact setStatusX_props _
      | exact setStatusTsx_props _ _
  · intro op hop s s' h hexec
    fin_cases hop
    all_goals
      first
      | rw [exec_ldyImmediate s h] at hexec
      | rw [exec_ldyZeroPage s h] at hexec
      | rw [exec_ldyZeroPageX s h] at hexec
      | rw [exec_ldyAbsolute s h] at hexec
      | rw [exec_ldyAbsoluteX s h] at hexec
    all_goals injection hexec with hs'
    all_goals subst hs'
    all_goals exact setStatusY_props _
  · intro op hop s s' h hexec
    fin_cases hop
    all_goals
      first
      | rw [exec_txs s h] at hexec
      | rw [exec_staZeroPage s h] at hexec
      | rw [exec_staZeroPageX s h] at hexec
      | rw [exec_staAbsolute s h] at hexec
      | rw [exec_staAbsoluteX s h] at hexec
      | rw [exec_staAbsoluteY s h] at hexec
      | rw [exec_staIndirectX s h] at hexec
      | rw [exec_staIndirectY s h] at hexec
      | rw [exec_stxZeroPage s h] at hexec
      | rw [exec_stxZeroPageY s h] at hexec
      | rw [exec_stxAbsolute s h] at hexec
      | rw [exec_styZeroPage s h] at hexec
      | rw [exec_styZeroPageX s h] at hexec
      | rw [exec_styAbsolute s h] at hexec
    all_goals injection hexec with hs'
    all_goals subst hs'
    all_goals rfl

end MOS6502

namespace MOS6502

/-- Witness for C7: the four quantified groups applied at concrete states —
`LDA #$80` (N set, other `P` bits preserved), `TSX` with `SP = $80`,
`LDY #$00` (Z set), and `STA $42` (`P` untouched). -/
theorem c7_flag_updates_witness :
    ((((executeNextInstruction c7wA).getD dfltCPU).status &&& 0x02 ≠ 0 ↔
        ((executeNextInstruction c7wA).getD dfltCPU).acc = 0) ∧
      (((executeNextInstruction c7wA).getD dfltCPU).status &&& 0x80 ≠ 0 ↔
        ((executeNextInstruction c7wA).getD dfltCPU).acc &&& 0x80 ≠ 0) ∧
      ((executeNextInstruction c7wA).getD dfltCPU).status &&& 0x7D =
        c7wA.status &&& 0x7D) ∧
    ((((executeNextInstruction c7wB).getD dfltCPU).status &&& 0x02 ≠ 0 ↔
        ((executeNextInstruction c7wB).getD dfltCPU).x = 0) ∧
      (((executeNextInstruction c7wB).getD dfltCPU).status &&& 0x80 ≠ 0 ↔
        ((executeNextInstruction c7wB).getD dfltCPU).x &&& 0x80 ≠ 0) ∧
      ((executeNextInstruction c7wB).getD dfltCPU).status &&& 0x7D =
        c7wB.status &&& 0x7D) ∧
    ((((executeNextInstruction c7wC).getD dfltCPU).status &&& 0x02 ≠ 0 ↔
        ((executeNextInstruction c7wC).getD dfltCPU).y = 0) ∧
      (((executeNextInstruction c7wC).getD dfltCPU).status &&& 0x80 ≠ 0 ↔
        ((executeNextInstruction c7wC).getD dfltCPU).y &&& 0x80 ≠ 0) ∧
      ((executeNextInstruction c7wC).getD dfltCPU).status &&& 0x7D =
        c7wC.status &&& 0x7D) ∧
    ((executeNextInstruction c7wD).getD dfltCPU).status = c7wD.status :=
  ⟨c7_flag_updates.1 0xA9 (by decide) c7wA _ rfl rfl,
   c7_flag_updates.2.1 0xBA (by decide) c7wB _ rfl rfl,
   c7_flag_updates.2.2.1 0xA0 (by decide) c7wC _ rfl rfl,
   c7_flag_updates.2.2.2 0x85 (by decide) c7wD _ rfl rfl⟩

end MOS6502

namespace MOS6502

lemma Memory.read_write_self (m : Memory) (b a : Nat) :
    (m.write b a).read a = b % 256 := by
  unfold Memory.read Memory.write
  simp

lemma Memory.read_write_ne (m : Memory) (b a a' : Nat) (h : a' % 65536 ≠ a % 65536) :
    (m.write b a).read a' = m.read a' := by
  unfold Memory.read Memory.write
  simp [h]

end MOS6502

namespace MOS6502

set_option maxRecDepth 8192 in
/-- Unfolding of `jsr` on its input state: fetch the target word, then trap
(underflow of `pc - 1`) when the post-fetch `PC` is 0, else push `PC - 1`
(high byte first) and jump. -/
lemma jsr_eq (c : CPU) :
    jsr c =
      if ((c.pc + 1) % 65536 + 1) % 65536 = 0 then none
      else
        some { c with
          sp := ((c.sp + 255) % 256 + 255) % 256
          pc := c.memory.read ((c.pc + 1) % 65536) <<< 8 ||| c.memory.read c.pc
          cycles := c.cycles + 1 + 1 + 1 + 1 + 1
          memory := (c.memory.write
              (((((c.pc + 1) % 65536 + 1) % 65536 - 1) >>> 8) % 256)
              (c.sp % 256 ||| SYS_STACK_ADDR_END)).write
            ((((c.pc + 1) % 65536 + 1) % 65536 - 1) % 256)
            ((c.sp + 255) % 256 % 256 ||| SYS_STACK_ADDR_END) } := by
  simp only [jsr, CPU.fetchAddr, CPU.fetchByte, CPU.incrementPc, CPU.pushAddrToStack,
    CPU.pushByteToStack]

/-- Unfolding of `rts` on its input state: pop the return address (low byte
first), then trap (overflow of `addr + 1`) when the popped address is
`$FFFF`, else set `PC` to the popped address plus one. -/
lemma rts_eq (c : CPU) :
    rts c =
      if (c.memory.read (((c.sp + 1) % 256 + 1) % 256 ||| SYS_STACK_ADDR_END) <<< 8 |||
            c.memory.read ((c.sp + 1) % 256 ||| SYS_STACK_ADDR_END)) + 1 ≥ 65536 then none
      else
        some { c with
          sp := ((c.sp + 1) % 256 + 1) % 256
          pc := (c.memory.read (((c.sp + 1) % 256 + 1) % 256 ||| SYS_STACK_ADDR_END) <<< 8 |||
            c.memory.read ((c.sp + 1) % 256 ||| SYS_STACK_ADDR_END)) + 1
          cycles := c.cycles + 2 + 2 + 1 } := by
  simp only [rts, CPU.popAddrFromStack, CPU.popByteFromStack]

set_option maxRecDepth 16384 in
/-- Claim C8: from a state whose `PC` points at a 3-byte `JSR` whose target
holds an `RTS` (in the post-`JSR` memory), executing both instructions
leaves `PC` at the address immediately after the `JSR`, restores `SP`, and
each instruction consumes exactly 6 cycles. -/
theorem c8_jsr_rts_round_trip (s s₁ s₂ : CPU)
    (hsp : s.sp < 256)
    (h1 : s.memory.read s.pc = 0x20)
    (hexec1 : executeNextInstruction s = some s₁)
    (hrts : s₁.memory.read (s.memory.read ((s.pc + 2) % 65536) <<< 8 |||
      s.memory.read ((s.pc + 1) % 65536)) = 0x60)
    (hexec2 : executeNextInstruction s₁ = some s₂) :
    s₂.pc = (s.pc + 3) % 65536 ∧ s₂.sp = s.sp ∧
    s₁.cycles = s.cycles + 6 ∧ s₂.cycles = s₁.cycles + 6 := by
  rw [executeNext_eq, h1, dispatch_jsr, jsr_eq] at hexec1
  dsimp only at hexec1
  rw [show ((s.pc + 1) % 65536 + 1) % 65536 = (s.pc + 2) % 65536 from by omega] at hexec1
  rw [show ((s.pc + 2) % 65536 + 1) % 65536 = (s.pc + 3) % 65536 from by omega] at hexec1
  rw [Nat.mod_eq_of_lt hsp] at hexec1
  rw [show (s.sp + 255) % 256 % 256 = (s.sp + 255) % 256 from by omega] at hexec1
  split at hexec1
  · exact absurd hexec1 (by simp)
  · rename_i hne
    injection hexec1 with hs1
    subst hs1
    rw [executeNext_eq] at hexec2
    dsimp only at hexec2 hrts
    rw [hrts, dispatch_rts, rts_eq] at hexec2
    dsimp only [SYS_STACK_ADDR_END] at hexec2
    rw [show (((s.sp + 255) % 256 + 255) % 256 + 1) % 256 = (s.sp + 255) % 256 from by
      omega] at hexec2
    rw [show ((s.sp + 255) % 256 + 1) % 256 = s.sp from by omega] at hexec2
    rw [or_256_eq ((s.sp + 255) % 256) (by omega), or_256_eq s.sp hsp] at hexec2
    rw [Memory.read_write_ne _ _ _ _
      (show (256 + s.sp) % 65536 ≠ (256 + (s.sp + 255) % 256) % 65536 from by omega)] at hexec2
    rw [Memory.read_write_self, Memory.read_write_self] at hexec2
    rw [show ((s.pc + 3) % 65536 - 1) % 256 % 256 = ((s.pc + 3) % 65536 - 1) % 256 from by
      omega] at hexec2
    rw [show (((s.pc + 3) % 65536 - 1) >>> 8) % 256 % 256 =
      (((s.pc + 3) % 65536 - 1) >>> 8) % 256 from by omega] at hexec2
    rw [hi_lo_recon _ (by omega)] at hexec2
    rw [if_neg (show ¬((s.pc + 3) % 65536 - 1 + 1 ≥ 65536) from by omega)] at hexec2
    injection hexec2 with hs2
    subst hs2
    dsimp only
    refine ⟨by omega, by omega, by omega, by omega⟩

end MOS6502

namespace MOS6502

/-- Witness for C8: the concrete `JSR $3042` / `RTS` pair of spec section 8
item 4 — `PC` ends at `$0203`, `SP` is restored, and each instruction takes
6 cycles. -/
theorem c8_jsr_rts_round_trip_witness :
    c8CPU.sp < 256 ∧
    (c8s2.pc = (c8CPU.pc + 3) % 65536 ∧ c8s2.sp = c8CPU.sp ∧
      c8s1.cycles = c8CPU.cycles + 6 ∧ c8s2.cycles = c8s1.cycles + 6) :=
  ⟨by decide, c8_jsr_rts_round_trip c8CPU c8s1 c8s2 (by decide) rfl rfl rfl rfl⟩

end MOS6502
